import Mathlib

set_option maxHeartbeats 1000000
set_option maxRecDepth 8000

/-!
Verification of the ADA in-process capture and drain pipeline.

This file shallowly embeds the backpressure controller
(`backpressure.h` and the implementation reproduced in
`docs/features/CPP_REGISTRY_MIGRATION.md`) and the drain worker
(`src/tracer_backend/src/drain_thread/drain_thread_private.h`) in Lean,
and proves properties of the embedded functions.

Machine integers are embedded as `Nat` with explicit `% 2^64`
where the C computation can wrap (the `fetch_add` counters and the
`uint64_t` subtraction `now_ns - candidate`).  All other arithmetic in
the sources (`free * 100`, `percent * total`, `pressure + 5`) cannot
overflow its C type for representable inputs, so it is embedded as
exact `Nat` arithmetic.

The monotonic clock `bp_now_ns()` / `monotonic_now_ns()` is embedded as
an explicit `wall` / `now` parameter: the C functions substitute the
clock reading only when the caller passes `now_ns == 0`.

The per-thread file writer is not part of the sources under
verification (only the spec describes it); a ghost `writer_handoffs`
field records what, if anything, the drain hands to a writer.
-/

namespace ADA

/-- Largest `uint32_t` value, used by the sources both as the
`lane_take_ring` empty sentinel and as the "unbounded" drain limit. -/
def UINT32_MAX : Nat := 4294967295

/-- Modulus of `uint64_t` arithmetic. -/
def U64 : Nat := 18446744073709551616

/-- Wrapping `uint64_t` subtraction `a - b` (for `a, b < 2^64`). -/
def u64_sub (a b : Nat) : Nat := (a + U64 - b % U64) % U64

/-- Embeds `ada_backpressure_mode_t`. -/
inductive BPMode where
  | NORMAL
  | PRESSURE
  | DROPPING
  | RECOVERY
deriving DecidableEq

/-- Embeds `ada_backpressure_config_t`. -/
structure BPConfig where
  pressure_threshold_percent : Nat
  recovery_threshold_percent : Nat
  recovery_stable_ns : Nat
  drop_log_interval : Nat
deriving DecidableEq

/-- Embeds `bp_default_config`: 25 / 50 / 1s / 64. -/
def bp_default_config : BPConfig :=
  { pressure_threshold_percent := 25
    recovery_threshold_percent := 50
    recovery_stable_ns := 1000000000
    drop_log_interval := 64 }

/-- First repair step of `bp_config_validate`: pressure threshold must
lie in (0,100), otherwise it is restored to the default. -/
def bp_validate_step_pressure (c : BPConfig × Bool) : BPConfig × Bool :=
  if c.1.pressure_threshold_percent = 0 ∨ 100 ≤ c.1.pressure_threshold_percent then
    ({ c.1 with pressure_threshold_percent := bp_default_config.pressure_threshold_percent },
      false)
  else c

/-- Second repair step of `bp_config_validate`: recovery threshold must
lie in (0,100], otherwise it is restored to the default. -/
def bp_validate_step_recovery (c : BPConfig × Bool) : BPConfig × Bool :=
  if c.1.recovery_threshold_percent = 0 ∨ 100 < c.1.recovery_threshold_percent then
    ({ c.1 with recovery_threshold_percent := bp_default_config.recovery_threshold_percent },
      false)
  else c

/-- Third repair step of `bp_config_validate`: inverted thresholds are
repaired to `recovery = pressure + 5`, or both are restored to the
defaults when `pressure >= 95`. -/
def bp_validate_step_inversion (c : BPConfig × Bool) : BPConfig × Bool :=
  if c.1.recovery_threshold_percent ≤ c.1.pressure_threshold_percent then
    if c.1.pressure_threshold_percent < 95 then
      ({ c.1 with recovery_threshold_percent := c.1.pressure_threshold_percent + 5 }, false)
    else
      ({ c.1 with
          pressure_threshold_percent := bp_default_config.pressure_threshold_percent
          recovery_threshold_percent := bp_default_config.recovery_threshold_percent },
        false)
  else c

/-- Fourth repair step of `bp_config_validate`: zero `drop_log_interval`
is restored to the default. -/
def bp_validate_step_interval (c : BPConfig × Bool) : BPConfig × Bool :=
  if c.1.drop_log_interval = 0 then
    ({ c.1 with drop_log_interval := bp_default_config.drop_log_interval }, false)
  else c

/-- Fifth repair step of `bp_config_validate`: zero `recovery_stable_ns`
is restored to the default. -/
def bp_validate_step_stable (c : BPConfig × Bool) : BPConfig × Bool :=
  if c.1.recovery_stable_ns = 0 then
    ({ c.1 with recovery_stable_ns := bp_default_config.recovery_stable_ns }, false)
  else c

/-- Embeds `bp_config_validate`.  The C function repairs the record in
place and returns the validity flag; here the repaired record is the
second component. -/
def bp_config_validate (cfg : BPConfig) : Bool × BPConfig :=
  let r := bp_validate_step_stable (bp_validate_step_interval (bp_validate_step_inversion
    (bp_validate_step_recovery (bp_validate_step_pressure (cfg, true)))))
  (r.2, r.1)

/-- Embeds `ada_backpressure_state_t` (all atomics flattened to fields;
the embedding is the single-threaded reading of the relaxed program). -/
structure BPState where
  mode : BPMode
  transitions : Nat
  events_dropped : Nat
  bytes_dropped : Nat
  drop_sequences : Nat
  free_rings : Nat
  total_rings : Nat
  low_watermark : Nat
  last_drop_ns : Nat
  last_recovery_ns : Nat
  pressure_start_ns : Nat
  recovery_candidate_ns : Nat
  config : BPConfig
deriving DecidableEq

/-- Embeds `ada_backpressure_state_init`: a null `cfg` pointer selects
the defaults; the effective copy is validated before being stored. -/
def ada_backpressure_state_init (cfg : Option BPConfig) : BPState :=
  { mode := .NORMAL
    transitions := 0
    events_dropped := 0
    bytes_dropped := 0
    drop_sequences := 0
    free_rings := 0
    total_rings := 0
    low_watermark := UINT32_MAX
    last_drop_ns := 0
    last_recovery_ns := 0
    pressure_start_ns := 0
    recovery_candidate_ns := 0
    config := (bp_config_validate (cfg.getD bp_default_config)).2 }

/-- Embeds `ada_backpressure_state_reset` (config preserved). -/
def ada_backpressure_state_reset (s : BPState) : BPState :=
  { mode := .NORMAL
    transitions := 0
    events_dropped := 0
    bytes_dropped := 0
    drop_sequences := 0
    free_rings := 0
    total_rings := 0
    low_watermark := UINT32_MAX
    last_drop_ns := 0
    last_recovery_ns := 0
    pressure_start_ns := 0
    recovery_candidate_ns := 0
    config := s.config }

/-- Embeds `ada_backpressure_state_set_total_rings` (zero is ignored;
the store-only-on-change is observationally the same store). -/
def ada_backpressure_state_set_total_rings (s : BPState) (total_rings : Nat) : BPState :=
  if total_rings = 0 then s else { s with total_rings := total_rings }

/-- Embeds `bp_update_low_watermark` (the CAS loop, single-threaded:
store `free_rings` iff it is below the current watermark). -/
def bp_update_low_watermark (s : BPState) (free_rings : Nat) : BPState :=
  if free_rings < s.low_watermark then { s with low_watermark := free_rings } else s

/-- Embeds `bp_total_effective`. -/
def bp_total_effective (s : BPState) : Nat :=
  if s.total_rings = 0 then 1 else s.total_rings

/-- Embeds `bp_threshold_crossed`. -/
def bp_threshold_crossed (percent total free : Nat) : Bool :=
  if total = 0 then false else decide (free * 100 < percent * total)

/-- Embeds `bp_transition` (single-threaded reading of the CAS loop).
The second component records the `bp_log_state_change` invocations. -/
def bp_transition (s : BPState) (expected desired : BPMode) (now_ns : Nat) :
    BPState × List (BPMode × BPMode) :=
  if s.mode = expected then
    let s1 := { s with mode := desired, transitions := (s.transitions + 1) % U64 }
    let s2 := if desired = .PRESSURE then { s1 with pressure_start_ns := now_ns } else s1
    let s3 := if desired = .RECOVERY then { s2 with recovery_candidate_ns := now_ns } else s2
    let s4 := if desired = .NORMAL then
        { s3 with pressure_start_ns := 0, recovery_candidate_ns := 0 } else s3
    (s4, if expected = desired then [] else [(expected, desired)])
  else
    (s, [])

/-- Embeds the `if (now_ns == 0) now_ns = bp_now_ns();` idiom: `wall`
stands for the monotonic clock reading the C code would substitute. -/
def bp_eff_now (now_ns wall : Nat) : Nat := if now_ns = 0 then wall else now_ns

/-- Embeds `ada_backpressure_state_sample`.  Returns the new state and
the logged transitions. -/
def ada_backpressure_state_sample (s0 : BPState) (free_rings now_ns wall : Nat) :
    BPState × List (BPMode × BPMode) :=
  let s := bp_update_low_watermark { s0 with free_rings := free_rings } free_rings
  let total := bp_total_effective s
  if s.mode = .NORMAL then
    if bp_threshold_crossed s.config.pressure_threshold_percent total free_rings then
      bp_transition s .NORMAL .PRESSURE (bp_eff_now now_ns wall)
    else (s, [])
  else if s.mode = .PRESSURE then
    if free_rings = 0 then
      bp_transition s .PRESSURE .DROPPING (bp_eff_now now_ns wall)
    else if !(bp_threshold_crossed s.config.pressure_threshold_percent total free_rings) then
      bp_transition s .PRESSURE .NORMAL (bp_eff_now now_ns wall)
    else (s, [])
  else if s.mode = .DROPPING then
    if !(bp_threshold_crossed s.config.recovery_threshold_percent total free_rings) then
      bp_transition s .DROPPING .RECOVERY (bp_eff_now now_ns wall)
    else (s, [])
  else
    if bp_threshold_crossed s.config.pressure_threshold_percent total free_rings then
      bp_transition s .RECOVERY .PRESSURE (bp_eff_now now_ns wall)
    else if s.recovery_candidate_ns = 0 then
      ({ s with recovery_candidate_ns := bp_eff_now now_ns wall }, [])
    else
      let t := bp_eff_now now_ns wall
      if s.config.recovery_stable_ns ≤ u64_sub t s.recovery_candidate_ns then
        let r := bp_transition s .RECOVERY .NORMAL t
        ({ r.1 with last_recovery_ns := t }, r.2)
      else (s, [])

/-- Embeds `ada_backpressure_state_on_exhaustion` (the four chained
`bp_transition` calls). -/
def ada_backpressure_state_on_exhaustion (s : BPState) (now_ns wall : Nat) :
    BPState × List (BPMode × BPMode) :=
  let t := bp_eff_now now_ns wall
  let r1 := bp_transition s .NORMAL .PRESSURE t
  let r2 := bp_transition r1.1 .RECOVERY .DROPPING t
  let r3 := bp_transition r2.1 .PRESSURE .DROPPING t
  let r4 := bp_transition r3.1 .NORMAL .DROPPING t
  (r4.1, r1.2 ++ r2.2 ++ r3.2 ++ r4.2)

/-- Embeds `ada_backpressure_state_on_drop`.  The `Bool` result records
whether `bp_log_drop_event` was invoked on this call. -/
def ada_backpressure_state_on_drop (s0 : BPState) (dropped_bytes now_ns wall : Nat) :
    BPState × Bool :=
  let t := bp_eff_now now_ns wall
  let s := { s0 with
    events_dropped := (s0.events_dropped + 1) % U64
    bytes_dropped := (s0.bytes_dropped + dropped_bytes) % U64
    last_drop_ns := t
    drop_sequences := (s0.drop_sequences + 1) % U64 }
  (s, decide (s.config.drop_log_interval ≠ 0 ∧
    s.events_dropped % s.config.drop_log_interval = 0))

/-- Embeds `ada_backpressure_state_on_recovery`. -/
def ada_backpressure_state_on_recovery (s0 : BPState) (free_rings now_ns wall : Nat) :
    BPState × List (BPMode × BPMode) :=
  let t := bp_eff_now now_ns wall
  let s := { s0 with free_rings := free_rings, last_recovery_ns := t }
  if s.mode = .DROPPING then bp_transition s .DROPPING .RECOVERY t else (s, [])

/-- Embeds `ada_backpressure_state_get_mode` (non-null state). -/
def ada_backpressure_state_get_mode (s : BPState) : BPMode := s.mode

/-- Embeds `ada_backpressure_state_get_drops` (non-null state). -/
def ada_backpressure_state_get_drops (s : BPState) : Nat := s.events_dropped

/-- Embeds `ada_backpressure_state_get_low_watermark`: the untouched
`UINT32_MAX` sentinel is reported as 0. -/
def ada_backpressure_state_get_low_watermark (s : BPState) : Nat :=
  if s.low_watermark = UINT32_MAX then 0 else s.low_watermark

/-- One call in a backpressure call sequence (the operations named by
the low-watermark claim).  Each records the `now_ns` argument and the
clock value `wall` that `bp_now_ns()` would return during the call. -/
inductive BPOp where
  | sample (free_rings now_ns wall : Nat)
  | onDrop (dropped_bytes now_ns wall : Nat)
  | onExhaustion (now_ns wall : Nat)
  | onRecovery (free_rings now_ns wall : Nat)
deriving DecidableEq

/-- Applies one backpressure call to a state. -/
def bp_apply_op (s : BPState) : BPOp → BPState
  | .sample free_rings now_ns wall => (ada_backpressure_state_sample s free_rings now_ns wall).1
  | .onDrop dropped_bytes now_ns wall =>
      (ada_backpressure_state_on_drop s dropped_bytes now_ns wall).1
  | .onExhaustion now_ns wall => (ada_backpressure_state_on_exhaustion s now_ns wall).1
  | .onRecovery free_rings now_ns wall =>
      (ada_backpressure_state_on_recovery s free_rings now_ns wall).1

/-- Runs a backpressure call sequence. -/
def bp_run_ops (s : BPState) (ops : List BPOp) : BPState := ops.foldl bp_apply_op s

/-- Transition table of the specification (the claimed behaviour of one
`ada_backpressure_state_sample` call), written from the spec's table:
this is the specification side of the refinement, to be compared with
the embedded `ada_backpressure_state_sample`. -/
def spec_sample_transition (s : BPState) (free_rings now_ns : Nat) : BPMode :=
  match s.mode with
  | .NORMAL =>
      if free_rings * 100 < s.config.pressure_threshold_percent * s.total_rings then
        .PRESSURE else .NORMAL
  | .PRESSURE =>
      if free_rings = 0 then .DROPPING
      else if s.config.pressure_threshold_percent * s.total_rings ≤ free_rings * 100 then
        .NORMAL
      else .PRESSURE
  | .DROPPING =>
      if s.config.recovery_threshold_percent * s.total_rings ≤ free_rings * 100 then
        .RECOVERY else .DROPPING
  | .RECOVERY =>
      if free_rings * 100 < s.config.pressure_threshold_percent * s.total_rings then
        .PRESSURE
      else if s.recovery_candidate_ns ≠ 0 ∧
          s.config.recovery_stable_ns ≤ now_ns - s.recovery_candidate_ns then
        .NORMAL
      else .RECOVERY

/-- State-change log entries produced by one
`ada_backpressure_state_on_exhaustion` call, by starting mode. -/
def spec_exhaustion_logs (m : BPMode) : List (BPMode × BPMode) :=
  match m with
  | .NORMAL => [(.NORMAL, .PRESSURE), (.PRESSURE, .DROPPING)]
  | .PRESSURE => [(.PRESSURE, .DROPPING)]
  | .DROPPING => []
  | .RECOVERY => [(.RECOVERY, .DROPPING)]

/-- Modelled from the spec: the registry holds `MAX_THREADS` slots
("fixed capacity (default ≤ 64, bounded by MAX_THREADS)"); the numeric
constant is not under the verified sources. -/
def MAX_THREADS : Nat := 64

/-- Embeds `DrainState` (declared in `drain_thread.h`; the five values
used by `drain_thread_private.h`). -/
inductive DrainState where
  | UNINITIALIZED
  | INITIALIZED
  | RUNNING
  | STOPPING
  | STOPPED
deriving DecidableEq

/-- Embeds `DrainConfig`. -/
structure DrainConfig where
  poll_interval_us : Nat
  max_batch_size : Nat
  fairness_quantum : Nat
  yield_on_idle : Bool
deriving DecidableEq

/-- Embeds `drain_config_default`. -/
def drain_config_default : DrainConfig :=
  { poll_interval_us := 1000
    max_batch_size := 8
    fairness_quantum := 8
    yield_on_idle := false }

/-- Modelled from the spec: a `Lane`'s two SPSC index queues (§4.2,
"submit: producer→drain; free: drain→producer", both strict FIFO).  The
`Lane` implementation is not under the verified sources; the drain only
uses `lane_take_ring` and `lane_return_ring`. -/
structure Lane where
  submit : List Nat
  free : List Nat
deriving DecidableEq

/-- Modelled from the spec: `take_from_submit() → ring_idx | NONE`
consumes from the submit queue head (`UINT32_MAX` is the C sentinel for
NONE). -/
def lane_take_ring (l : Lane) : Option Nat × Lane :=
  match l.submit with
  | [] => (none, l)
  | r :: rest => (some r, { l with submit := rest })

/-- Modelled from the spec: `return_to_free(ring_idx)` enqueues to the
free queue tail and "must succeed; the free queue is sized to the pool
and therefore cannot overflow".  `return_ring_to_producer` retries the
call until it succeeds, so the embedded return always succeeds. -/
def lane_return_ring (l : Lane) (ring_idx : Nat) : Lane :=
  { l with free := l.free ++ [ring_idx] }

/-- Embeds `ThreadLaneSet` as seen by the drain: its index and detail
lanes (either lane pointer may be null). -/
structure ThreadLaneSet where
  index_lane : Option Lane
  detail_lane : Option Lane
deriving DecidableEq

/-- Embeds `ThreadRegistry` as seen by the drain: the slot array
(capacity = array length; an unoccupied slot is `none`). -/
structure ThreadRegistry where
  slots : List (Option ThreadLaneSet)
deriving DecidableEq

/-- Embeds `thread_registry_get_capacity`. -/
def thread_registry_get_capacity (r : ThreadRegistry) : Nat := r.slots.length

/-- Embeds `thread_registry_get_thread_at`. -/
def thread_registry_get_thread_at (r : ThreadRegistry) (i : Nat) : Option ThreadLaneSet :=
  (r.slots.getD i none)

/-- Embeds `DrainMetricsAtomic`.  `per_thread_index_rings` and
`per_thread_detail_rings` are the two columns of
`per_thread_rings[MAX_THREADS][2]`.  `writer_handoffs` is a ghost field
modelled from the spec ("hand its bytes to the per-thread writer"):
each handoff would record (slot, is-detail, ring index); the sources
never perform one. -/
structure DrainMetrics where
  cycles_total : Nat
  cycles_idle : Nat
  rings_total : Nat
  rings_index : Nat
  rings_detail : Nat
  fairness_switches : Nat
  sleeps : Nat
  yields : Nat
  final_drains : Nat
  total_sleep_us : Nat
  per_thread_index_rings : List Nat
  per_thread_detail_rings : List Nat
  writer_handoffs : List (Nat × Bool × Nat)
deriving DecidableEq

/-- Embeds `drain_metrics_atomic_reset`. -/
def drain_metrics_atomic_reset : DrainMetrics :=
  { cycles_total := 0
    cycles_idle := 0
    rings_total := 0
    rings_index := 0
    rings_detail := 0
    fairness_switches := 0
    sleeps := 0
    yields := 0
    final_drains := 0
    total_sleep_us := 0
    per_thread_index_rings := List.replicate MAX_THREADS 0
    per_thread_detail_rings := List.replicate MAX_THREADS 0
    writer_handoffs := [] }

/-- Embeds `struct DrainThread` (worker handle and lifecycle mutex
elided; the mutex serializes the lifecycle calls, which the
single-threaded embedding sequentializes). -/
structure DrainThread where
  state : DrainState
  registry : ThreadRegistry
  config : DrainConfig
  thread_started : Bool
  rr_cursor : Nat
  last_cycle_ns : Nat
  metrics : DrainMetrics
deriving DecidableEq

/-- Embeds `compute_effective_limit` (the C function reads
`drain->config`). -/
def compute_effective_limit (config : DrainConfig) (final_pass : Bool) : Nat :=
  if final_pass then UINT32_MAX
  else
    let limit := config.max_batch_size
    let quantum := config.fairness_quantum
    let limit2 := if limit = 0 then quantum
      else if 0 < quantum ∧ quantum < limit then quantum else limit
    if limit2 = 0 then UINT32_MAX else limit2

/-- Embeds the take/return loop of `drain_lane`: repeatedly
`lane_take_ring` then `return_ring_to_producer`, at most `limit` times.
Arguments are the lane's free queue, the remaining budget and the
lane's submit queue; the result is the final free queue, the final
submit queue and the processed count. -/
def drain_lane_loop (free : List Nat) (limit : Nat) (submit : List Nat) :
    List Nat × List Nat × Nat :=
  match submit with
  | [] => (free, [], 0)
  | r :: rest =>
    if limit = 0 then (free, r :: rest, 0)
    else
      let res := drain_lane_loop (free ++ [r]) (limit - 1) rest
      (res.1, res.2.1, res.2.2 + 1)

/-- Lane-level result of `drain_lane`: the updated lane, the processed
count, and the `out_hit_limit` flag. -/
def drain_lane_core (limit : Nat) (l : Lane) : Lane × Nat × Bool :=
  let res := drain_lane_loop l.free limit l.submit
  ({ submit := res.2.1, free := res.1 }, res.2.2,
    decide (limit ≠ UINT32_MAX ∧ res.2.2 = limit))

/-- Result record of `drain_lane` (the C function mutates
`drain->metrics` and the lane, and returns the processed count plus
`out_hit_limit`). -/
structure DrainLaneResult where
  drain : DrainThread
  lane : Option Lane
  processed : Nat
  hit_limit : Bool
deriving DecidableEq

/-- Embeds `drain_lane`. -/
def drain_lane (drain : DrainThread) (slot_index : Nat) (lane : Option Lane)
    (is_detail final_pass : Bool) : DrainLaneResult :=
  match lane with
  | none => { drain := drain, lane := none, processed := 0, hit_limit := false }
  | some l =>
    let limit := compute_effective_limit drain.config final_pass
    let core := drain_lane_core limit l
    let processed := core.2.1
    if processed = 0 then
      { drain := drain, lane := some core.1, processed := 0, hit_limit := core.2.2 }
    else
      let m0 := drain.metrics
      let m1 := { m0 with rings_total := (m0.rings_total + processed) % U64 }
      let m2 := if is_detail then
          { m1 with rings_detail := (m1.rings_detail + processed) % U64 }
        else
          { m1 with rings_index := (m1.rings_index + processed) % U64 }
      let newdet := m2.per_thread_detail_rings.set slot_index
        ((m2.per_thread_detail_rings.getD slot_index 0 + processed) % U64)
      let newidx := m2.per_thread_index_rings.set slot_index
        ((m2.per_thread_index_rings.getD slot_index 0 + processed) % U64)
      let m3 := if slot_index < MAX_THREADS then
          (if is_detail then { m2 with per_thread_detail_rings := newdet }
          else { m2 with per_thread_index_rings := newidx })
        else m2
      { drain := { drain with metrics := m3 }, lane := some core.1,
        processed := processed, hit_limit := core.2.2 }

/-- One conditional `fairness_switches` increment, `if (hit)
fetch_add(&fairness_switches, 1)` (wrapping `uint64` add). -/
def fair_bump (f : Nat) (hit : Bool) : Nat := if hit then (f + 1) % U64 else f

/-- Loop body of `drain_cycle` for one occupied slot: drain the index
lane then the detail lane, counting a fairness switch for each lane
that hit its limit (`fair_bump`; by structure eta this is the same
state as the C's conditional increment), and write the updated lanes
back into the slot.  Returns the updated drain and whether either lane
processed a ring. -/
def drain_slot_step (drain : DrainThread) (slot : Nat) (lanes : ThreadLaneSet)
    (final_pass : Bool) : DrainThread × Bool :=
  let r1 := drain_lane drain slot lanes.index_lane false final_pass
  let d1 := { r1.drain with metrics := { r1.drain.metrics with
      fairness_switches := fair_bump r1.drain.metrics.fairness_switches r1.hit_limit } }
  let r2 := drain_lane d1 slot lanes.detail_lane true final_pass
  let d2 := { r2.drain with metrics := { r2.drain.metrics with
      fairness_switches := fair_bump r2.drain.metrics.fairness_switches r2.hit_limit } }
  let newslots := d2.registry.slots.set slot
    (some { index_lane := r1.lane, detail_lane := r2.lane })
  ({ d2 with registry := { slots := newslots } },
    decide (0 < r1.processed) || decide (0 < r2.processed))

/-- Per-slot loop of `drain_cycle`: iterates the remaining round-robin
offsets, applying `drain_slot_step` to each occupied slot and
accumulating the work flag. -/
def drain_cycle_go (drain : DrainThread) (final_pass : Bool) (start capacity : Nat)
    (offsets : List Nat) (work_done : Bool) : DrainThread × Bool :=
  match offsets with
  | [] => (drain, work_done)
  | offset :: rest =>
    let slot := (start + offset) % capacity
    match thread_registry_get_thread_at drain.registry slot with
    | none => drain_cycle_go drain final_pass start capacity rest work_done
    | some lanes =>
      let s := drain_slot_step drain slot lanes final_pass
      drain_cycle_go s.1 final_pass start capacity rest (work_done || s.2)

/-- Embeds `drain_cycle`.  `now_ns` models `monotonic_now_ns()`.  (The
null-registry guard has no counterpart: the embedded registry is a
plain field.) -/
def drain_cycle (drain : DrainThread) (final_pass : Bool) (now_ns : Nat) :
    DrainThread × Bool :=
  let capacity := thread_registry_get_capacity drain.registry
  if capacity = 0 then (drain, false)
  else
    let start := if capacity ≤ drain.rr_cursor then 0 else drain.rr_cursor
    let res := drain_cycle_go drain final_pass start capacity (List.range capacity) false
    ({ res.1 with rr_cursor := (start + 1) % capacity, last_cycle_ns := now_ns }, res.2)

/-- Lane result of one `drain_lane` call, as a function of the lane
alone (drain_lane only reads `drain->config` besides the lane). -/
def lane_drained_opt (config : DrainConfig) (final_pass : Bool) : Option Lane → Option Lane
  | none => none
  | some l => some (drain_lane_core (compute_effective_limit config final_pass) l).1

/-- Whether one `drain_lane` call reports `out_hit_limit` for a lane. -/
def lane_hit_flag (config : DrainConfig) (final_pass : Bool) : Option Lane → Bool
  | none => false
  | some l => (drain_lane_core (compute_effective_limit config final_pass) l).2.2

/-- Processed count of one `drain_lane` call, as a function of the
lane alone. -/
def lane_processed_opt (config : DrainConfig) (final_pass : Bool) : Option Lane → Nat
  | none => 0
  | some l => (drain_lane_core (compute_effective_limit config final_pass) l).2.1

/-- Ghost re-execution of one cycle's lane drains that counts the lanes
whose drain stopped because it hit the effective limit (the lanes for
which `drain_cycle` increments `fairness_switches`). -/
def drain_cycle_hits_go (config : DrainConfig) (final_pass : Bool) (start capacity : Nat)
    (reg : ThreadRegistry) (offsets : List Nat) : Nat :=
  match offsets with
  | [] => 0
  | offset :: rest =>
    let slot := (start + offset) % capacity
    match thread_registry_get_thread_at reg slot with
    | none => drain_cycle_hits_go config final_pass start capacity reg rest
    | some lanes =>
      let newslots := reg.slots.set slot
        (some { index_lane := lane_drained_opt config final_pass lanes.index_lane
                detail_lane := lane_drained_opt config final_pass lanes.detail_lane })
      let reg2 : ThreadRegistry := { slots := newslots }
      (if lane_hit_flag config final_pass lanes.index_lane then 1 else 0) +
        ((if lane_hit_flag config final_pass lanes.detail_lane then 1 else 0) +
          drain_cycle_hits_go config final_pass start capacity reg2 rest)

/-- Number of lanes that hit their fairness limit in one `drain_cycle`
starting from `drain`. -/
def drain_cycle_hits (drain : DrainThread) (final_pass : Bool) : Nat :=
  let capacity := thread_registry_get_capacity drain.registry
  if capacity = 0 then 0
  else
    let start := if capacity ≤ drain.rr_cursor then 0 else drain.rr_cursor
    drain_cycle_hits_go drain.config final_pass start capacity drain.registry
      (List.range capacity)

/-- Embeds the final-drain loop of `drain_worker_thread`
(`do { had_work = drain_cycle(drain, true); cycles_total++; if
(!had_work) break; } while (had_work);`).  The C loop is unbounded;
`fuel` bounds the embedded recursion and the `Bool` result reports
whether the loop exited by seeing a workless cycle within `fuel`
iterations. -/
def drain_worker_final_loop (fuel : Nat) (drain : DrainThread) (now_ns : Nat) :
    DrainThread × Bool :=
  match fuel with
  | 0 => (drain, false)
  | f + 1 =>
    let r := drain_cycle drain true now_ns
    let d1 := { r.1 with metrics := { r.1.metrics with
        cycles_total := (r.1.metrics.cycles_total + 1) % U64 } }
    if r.2 then drain_worker_final_loop f d1 now_ns else (d1, true)

/-- Embeds the shutdown tail of `drain_worker_thread`: after the worker
observes a non-RUNNING state it counts a final drain, repeats full
cycles until one yields no work, and only then stores
`DRAIN_STATE_STOPPED`.  The store is modelled only when the loop
completed within `fuel`. -/
def drain_worker_on_stop (drain : DrainThread) (fuel now_ns : Nat) : DrainThread × Bool :=
  let d1 := { drain with metrics := { drain.metrics with
      final_drains := (drain.metrics.final_drains + 1) % U64 } }
  let r := drain_worker_final_loop fuel d1 now_ns
  if r.2 then ({ r.1 with state := .STOPPED }, true) else (r.1, false)

/-- Errno value returned by `drain_thread_start` for a null drain
(`-EINVAL`; 22 on Linux and macOS). -/
def EINVAL : Int := 22

/-- Errno value returned by `drain_thread_start` after a stop
(`-EALREADY`; the claims depend only on it being the distinguished
"already terminated" code, not on the numeral). -/
def EALREADY : Int := 114

/-- Embeds `drain_thread_start` (non-null drain, `pthread_create`
succeeding; the CAS on `state` is sequentialized under the lifecycle
lock). -/
def drain_thread_start (drain : DrainThread) : Int × DrainThread :=
  match drain.state with
  | .INITIALIZED => (0, { drain with state := .RUNNING, thread_started := true })
  | .RUNNING => (0, drain)
  | .STOPPING => (-EALREADY, drain)
  | .STOPPED => (-EALREADY, drain)
  | .UNINITIALIZED => (-EINVAL, drain)

/-- Embeds `drain_thread_stop` (non-null drain, `pthread_join`
succeeding).  Joining a started worker is modelled by running the
worker's shutdown tail `drain_worker_on_stop`, which is where the
worker finishes before `pthread_join` returns. -/
def drain_thread_stop (drain : DrainThread) (fuel now_ns : Nat) : Int × DrainThread :=
  match drain.state with
  | .INITIALIZED => (0, drain)
  | .STOPPED =>
    if drain.thread_started then (0, { drain with thread_started := false })
    else (0, drain)
  | _ =>
    let d1 := if drain.state = .RUNNING then { drain with state := .STOPPING } else drain
    if d1.thread_started then
      let r := drain_worker_on_stop d1 fuel now_ns
      (0, { r.1 with thread_started := false })
    else (0, d1)

/-- Final-pass result of one lane (spec side of the shutdown claim):
everything that was in submit is moved to the tail of free. -/
def lane_final_drained (l : Lane) : Lane :=
  { submit := [], free := l.free ++ l.submit }

/-- Final-pass result of one slot's lane set. -/
def laneset_final_drained (lanes : ThreadLaneSet) : ThreadLaneSet :=
  { index_lane := lanes.index_lane.map lane_final_drained
    detail_lane := lanes.detail_lane.map lane_final_drained }

/-- Every lane reachable through the registry's slots satisfies `P`. -/
def registry_lanes_prop (P : Lane → Prop) (reg : ThreadRegistry) : Prop :=
  ∀ slot ls, reg.slots.getD slot none = some ls → ∀ l,
    (ls.index_lane = some l ∨ ls.detail_lane = some l) → P l

/-- Every lane reachable in the registry has fewer than `bound` rings
in its submit queue (physically guaranteed: a lane owns at most N ≈ 16
rings). -/
def registry_submit_bounded (reg : ThreadRegistry) (bound : Nat) : Prop :=
  registry_lanes_prop (fun l => l.submit.length < bound) reg

/-- Every lane reachable in the registry has an empty submit queue. -/
def registry_all_empty (reg : ThreadRegistry) : Prop :=
  registry_lanes_prop (fun l => l.submit = []) reg

/-- One iteration of the final-drain loop as a state function: the
cycle followed by the `cycles_total++` bump (the body of the C
`do { ... } while` loop). -/
def drain_cycle_bumped (d : DrainThread) (now_ns : Nat) : DrainThread :=
  { (drain_cycle d true now_ns).1 with
    metrics := { (drain_cycle d true now_ns).1.metrics with
      cycles_total := ((drain_cycle d true now_ns).1.metrics.cycles_total + 1) % U64 } }

/-! ## Lemmas about `bp_config_validate` -/

lemma bp_config_validate_post (cfg : BPConfig) :
    0 < (bp_config_validate cfg).2.pressure_threshold_percent ∧
    (bp_config_validate cfg).2.pressure_threshold_percent <
      (bp_config_validate cfg).2.recovery_threshold_percent ∧
    (bp_config_validate cfg).2.recovery_threshold_percent ≤ 100 ∧
    (bp_config_validate cfg).2.pressure_threshold_percent < 100 ∧
    (bp_config_validate cfg).2.drop_log_interval ≠ 0 ∧
    (bp_config_validate cfg).2.recovery_stable_ns ≠ 0 := by
  unfold bp_config_validate bp_validate_step_stable bp_validate_step_interval
    bp_validate_step_inversion bp_validate_step_recovery bp_validate_step_pressure
    bp_default_config
  dsimp only
  split_ifs <;> simp_all <;> omega

lemma bp_config_validate_fixed (cfg : BPConfig)
    (h1 : 0 < cfg.pressure_threshold_percent)
    (h2 : cfg.pressure_threshold_percent < 100)
    (h3 : cfg.pressure_threshold_percent < cfg.recovery_threshold_percent)
    (h4 : cfg.recovery_threshold_percent ≤ 100)
    (h5 : cfg.drop_log_interval ≠ 0)
    (h6 : cfg.recovery_stable_ns ≠ 0) :
    bp_config_validate cfg = (true, cfg) := by
  have e1 : bp_validate_step_pressure (cfg, true) = (cfg, true) := by
    unfold bp_validate_step_pressure
    rw [if_neg (by dsimp only; omega)]
  have e2 : bp_validate_step_recovery (cfg, true) = (cfg, true) := by
    unfold bp_validate_step_recovery
    rw [if_neg (by dsimp only; omega)]
  have e3 : bp_validate_step_inversion (cfg, true) = (cfg, true) := by
    unfold bp_validate_step_inversion
    rw [if_neg (by dsimp only; omega)]
  have e4 : bp_validate_step_interval (cfg, true) = (cfg, true) := by
    unfold bp_validate_step_interval
    rw [if_neg (by dsimp only; exact h5)]
  have e5 : bp_validate_step_stable (cfg, true) = (cfg, true) := by
    unfold bp_validate_step_stable
    rw [if_neg (by dsimp only; exact h6)]
  simp only [bp_config_validate, e1, e2, e3, e4, e5]

lemma bp_validate_step_pressure_flag (c : BPConfig × Bool) (h : c.2 = false) :
    (bp_validate_step_pressure c).2 = false := by
  unfold bp_validate_step_pressure; split_ifs <;> simp_all

lemma bp_validate_step_recovery_flag (c : BPConfig × Bool) (h : c.2 = false) :
    (bp_validate_step_recovery c).2 = false := by
  unfold bp_validate_step_recovery; split_ifs <;> simp_all

lemma bp_validate_step_inversion_flag (c : BPConfig × Bool) (h : c.2 = false) :
    (bp_validate_step_inversion c).2 = false := by
  unfold bp_validate_step_inversion; split_ifs <;> simp_all

lemma bp_validate_step_interval_flag (c : BPConfig × Bool) (h : c.2 = false) :
    (bp_validate_step_interval c).2 = false := by
  unfold bp_validate_step_interval; split_ifs <;> simp_all

lemma bp_validate_step_stable_flag (c : BPConfig × Bool) (h : c.2 = false) :
    (bp_validate_step_stable c).2 = false := by
  unfold bp_validate_step_stable; split_ifs <;> simp_all

lemma bp_config_validate_flag_of_false (cfg : BPConfig)
    (h : (bp_validate_step_inversion (bp_validate_step_recovery
        (bp_validate_step_pressure (cfg, true)))).2 = false) :
    (bp_config_validate cfg).1 = false := by
  unfold bp_config_validate
  dsimp only
  exact bp_validate_step_stable_flag _ (bp_validate_step_interval_flag _ h)

lemma bp_validate_step_pressure_keeps (c : BPConfig × Bool) :
    (bp_validate_step_pressure c).1.recovery_threshold_percent =
      c.1.recovery_threshold_percent := by
  unfold bp_validate_step_pressure; split_ifs <;> rfl

lemma bp_validate_step_interval_keeps (c : BPConfig × Bool) :
    (bp_validate_step_interval c).1.pressure_threshold_percent =
        c.1.pressure_threshold_percent ∧
    (bp_validate_step_interval c).1.recovery_threshold_percent =
        c.1.recovery_threshold_percent := by
  unfold bp_validate_step_interval; split_ifs <;> exact ⟨rfl, rfl⟩

lemma bp_validate_step_stable_keeps (c : BPConfig × Bool) :
    (bp_validate_step_stable c).1.pressure_threshold_percent =
        c.1.pressure_threshold_percent ∧
    (bp_validate_step_stable c).1.recovery_threshold_percent =
        c.1.recovery_threshold_percent := by
  unfold bp_validate_step_stable; split_ifs <;> exact ⟨rfl, rfl⟩

/-- C5: `bp_config_validate` reports invalid whenever the pressure
threshold lies outside (0,100), the recovery threshold lies outside
(0,100], or the recovery threshold is not strictly greater than the
pressure threshold; inverted thresholds are repaired to
`recovery = pressure + 5` when `pressure < 95` and otherwise both
thresholds are restored to the defaults 25/50; after any call the
config satisfies `0 < pressure < recovery ≤ 100`. -/
theorem bp_config_validate_repairs (cfg : BPConfig) :
    ((cfg.pressure_threshold_percent = 0 ∨ 100 ≤ cfg.pressure_threshold_percent ∨
      cfg.recovery_threshold_percent = 0 ∨ 100 < cfg.recovery_threshold_percent ∨
      cfg.recovery_threshold_percent ≤ cfg.pressure_threshold_percent) →
      (bp_config_validate cfg).1 = false) ∧
    (0 < (bp_config_validate cfg).2.pressure_threshold_percent ∧
      (bp_config_validate cfg).2.pressure_threshold_percent <
        (bp_config_validate cfg).2.recovery_threshold_percent ∧
      (bp_config_validate cfg).2.recovery_threshold_percent ≤ 100) ∧
    ((0 < cfg.pressure_threshold_percent ∧ cfg.pressure_threshold_percent < 100 ∧
      0 < cfg.recovery_threshold_percent ∧ cfg.recovery_threshold_percent ≤ 100 ∧
      cfg.recovery_threshold_percent ≤ cfg.pressure_threshold_percent ∧
      cfg.pressure_threshold_percent < 95) →
      (bp_config_validate cfg).2.pressure_threshold_percent =
          cfg.pressure_threshold_percent ∧
      (bp_config_validate cfg).2.recovery_threshold_percent =
          cfg.pressure_threshold_percent + 5) ∧
    ((0 < cfg.pressure_threshold_percent ∧ cfg.pressure_threshold_percent < 100 ∧
      0 < cfg.recovery_threshold_percent ∧ cfg.recovery_threshold_percent ≤ 100 ∧
      cfg.recovery_threshold_percent ≤ cfg.pressure_threshold_percent ∧
      95 ≤ cfg.pressure_threshold_percent) →
      (bp_config_validate cfg).2.pressure_threshold_percent = 25 ∧
      (bp_config_validate cfg).2.recovery_threshold_percent = 50) := by
  refine ⟨?_, ?_, ?_, ?_⟩
  · intro h
    by_cases hA : cfg.pressure_threshold_percent = 0 ∨ 100 ≤ cfg.pressure_threshold_percent
    · apply bp_config_validate_flag_of_false
      apply bp_validate_step_inversion_flag
      apply bp_validate_step_recovery_flag
      unfold bp_validate_step_pressure
      rw [if_pos (by dsimp only; exact hA)]
    by_cases hB : cfg.recovery_threshold_percent = 0 ∨ 100 < cfg.recovery_threshold_percent
    · apply bp_config_validate_flag_of_false
      apply bp_validate_step_inversion_flag
      unfold bp_validate_step_recovery
      rw [if_pos ?_]
      rw [(bp_validate_step_pressure_keeps (cfg, true))]
      exact hB
    · have hC : cfg.recovery_threshold_percent ≤ cfg.pressure_threshold_percent := by
        rcases h with h | h | h | h | h
        · exact absurd (Or.inl h) hA
        · exact absurd (Or.inr h) hA
        · exact absurd (Or.inl h) hB
        · exact absurd (Or.inr h) hB
        · exact h
      have e1 : bp_validate_step_pressure (cfg, true) = (cfg, true) := by
        unfold bp_validate_step_pressure
        rw [if_neg (by dsimp only; exact hA)]
      have e2 : bp_validate_step_recovery (cfg, true) = (cfg, true) := by
        unfold bp_validate_step_recovery
        rw [if_neg (by dsimp only; exact hB)]
      apply bp_config_validate_flag_of_false
      rw [e1, e2]
      unfold bp_validate_step_inversion
      rw [if_pos (by dsimp only; exact hC)]
      split_ifs <;> rfl
  · obtain ⟨p1, p2, p3, _⟩ := bp_config_validate_post cfg
    exact ⟨p1, p2, p3⟩
  · rintro ⟨k1, k2, k3, k4, k5, k6⟩
    have e1 : bp_validate_step_pressure (cfg, true) = (cfg, true) := by
      unfold bp_validate_step_pressure
      rw [if_neg (by dsimp only; omega)]
    have e2 : bp_validate_step_recovery (cfg, true) = (cfg, true) := by
      unfold bp_validate_step_recovery
      rw [if_neg (by dsimp only; omega)]
    have e3 : bp_validate_step_inversion (cfg, true) =
        ({ cfg with recovery_threshold_percent := cfg.pressure_threshold_percent + 5 },
          false) := by
      unfold bp_validate_step_inversion
      rw [if_pos (by dsimp only; exact k5), if_pos (by dsimp only; exact k6)]
    unfold bp_config_validate
    dsimp only
    rw [e1, e2, e3]
    refine ⟨?_, ?_⟩
    · rw [(bp_validate_step_stable_keeps _).1, (bp_validate_step_interval_keeps _).1]
    · rw [(bp_validate_step_stable_keeps _).2, (bp_validate_step_interval_keeps _).2]
  · rintro ⟨k1, k2, k3, k4, k5, k6⟩
    have e1 : bp_validate_step_pressure (cfg, true) = (cfg, true) := by
      unfold bp_validate_step_pressure
      rw [if_neg (by dsimp only; omega)]
    have e2 : bp_validate_step_recovery (cfg, true) = (cfg, true) := by
      unfold bp_validate_step_recovery
      rw [if_neg (by dsimp only; omega)]
    have e3 : bp_validate_step_inversion (cfg, true) =
        ({ cfg with pressure_threshold_percent := 25, recovery_threshold_percent := 50 },
          false) := by
      unfold bp_validate_step_inversion
      rw [if_pos (by dsimp only; exact k5), if_neg (by dsimp only; omega)]
      rfl
    unfold bp_config_validate
    dsimp only
    rw [e1, e2, e3]
    refine ⟨?_, ?_⟩
    · rw [(bp_validate_step_stable_keeps _).1, (bp_validate_step_interval_keeps _).1]
    · rw [(bp_validate_step_stable_keeps _).2, (bp_validate_step_interval_keeps _).2]

/-- Witness for C5 at the concrete inverted configuration
`{30, 20, 0, 0}` (repaired in place to `{30, 35, 1s, 64}`). -/
theorem bp_config_validate_repairs_witness :
    (bp_config_validate
      { pressure_threshold_percent := 30, recovery_threshold_percent := 20,
        recovery_stable_ns := 0, drop_log_interval := 0 }).1 = false ∧
    (bp_config_validate
      { pressure_threshold_percent := 30, recovery_threshold_percent := 20,
        recovery_stable_ns := 0, drop_log_interval := 0 }).2.pressure_threshold_percent = 30 ∧
    (bp_config_validate
      { pressure_threshold_percent := 30, recovery_threshold_percent := 20,
        recovery_stable_ns := 0, drop_log_interval := 0 }).2.recovery_threshold_percent = 35 := by
  have h := bp_config_validate_repairs
    { pressure_threshold_percent := 30, recovery_threshold_percent := 20,
      recovery_stable_ns := 0, drop_log_interval := 0 }
  have h3 := h.2.2.1 (by refine ⟨?_, ?_, ?_, ?_, ?_, ?_⟩ <;> decide)
  exact ⟨h.1 (by right; right; right; right; decide), h3.1, by rw [h3.2]⟩

/-- C9: `bp_config_validate` is idempotent on repaired configurations:
a second call returns true and leaves every field unchanged. -/
theorem bp_config_validate_idempotent (cfg : BPConfig) :
    bp_config_validate (bp_config_validate cfg).2 = (true, (bp_config_validate cfg).2) := by
  obtain ⟨h1, h2, h3, h4, h5, h6⟩ := bp_config_validate_post cfg
  exact bp_config_validate_fixed _ h1 h4 h2 h3 h5 h6

/-! ## Lemmas about the backpressure state machine -/

/-- C6 counterexample: two consecutive `ada_backpressure_state_on_drop`
calls — one contiguous drop episode with no intervening recovery —
leave `drop_sequences = 2`, equal to `events_dropped`.  The code
increments `drop_sequences` once per dropped record, so it does not
count contiguous drop episodes separately from individual dropped
records as the claim states. -/
theorem bp_drop_sequences_per_record_counterexample :
    ((ada_backpressure_state_on_drop
      ((ada_backpressure_state_on_drop (ada_backpressure_state_init none) 16 1 0).1)
      16 2 0).1).drop_sequences = 2 ∧
    ((ada_backpressure_state_on_drop
      ((ada_backpressure_state_on_drop (ada_backpressure_state_init none) 16 1 0).1)
      16 2 0).1).events_dropped = 2 := by
  exact ⟨by decide, by decide⟩

/-- C6 (amended): every `ada_backpressure_state_on_drop` call
increments `events_dropped` by exactly one, `bytes_dropped` by the
dropped record's byte size, and `drop_sequences` by exactly one as well
(once per dropped record, not once per contiguous episode); the
human-readable drop log is emitted exactly when `drop_log_interval` is
nonzero and the updated drop total is a multiple of it. -/
theorem bp_on_drop_accounting (s : BPState) (dropped_bytes now_ns wall : Nat)
    (hE : s.events_dropped + 1 < U64)
    (hB : s.bytes_dropped + dropped_bytes < U64)
    (hD : s.drop_sequences + 1 < U64) :
    (ada_backpressure_state_on_drop s dropped_bytes now_ns wall).1.events_dropped =
        s.events_dropped + 1 ∧
    (ada_backpressure_state_on_drop s dropped_bytes now_ns wall).1.bytes_dropped =
        s.bytes_dropped + dropped_bytes ∧
    (ada_backpressure_state_on_drop s dropped_bytes now_ns wall).1.drop_sequences =
        s.drop_sequences + 1 ∧
    ((ada_backpressure_state_on_drop s dropped_bytes now_ns wall).2 = true ↔
      (s.config.drop_log_interval ≠ 0 ∧
        (s.events_dropped + 1) % s.config.drop_log_interval = 0)) := by
  unfold ada_backpressure_state_on_drop
  dsimp only
  rw [Nat.mod_eq_of_lt hE, Nat.mod_eq_of_lt hB, Nat.mod_eq_of_lt hD]
  refine ⟨rfl, rfl, rfl, ?_⟩
  simp

/-- Witness for C6's amended accounting at a concrete state (the
default-initialized state, one 16-byte drop, `now = 1`). -/
theorem bp_on_drop_accounting_witness :
    ((ada_backpressure_state_init none).events_dropped + 1 < U64 ∧
      (ada_backpressure_state_init none).bytes_dropped + 16 < U64 ∧
      (ada_backpressure_state_init none).drop_sequences + 1 < U64) ∧
    (ada_backpressure_state_on_drop (ada_backpressure_state_init none) 16 1 0).1.events_dropped
      = 1 := by
  refine ⟨⟨by decide, by decide, by decide⟩, ?_⟩
  have h := bp_on_drop_accounting (ada_backpressure_state_init none) 16 1 0
    (by decide) (by decide) (by decide)
  exact h.1

/-- C10: `ada_backpressure_state_on_exhaustion` always leaves the mode
in DROPPING: from NORMAL it passes through PRESSURE first, logging and
counting two transitions; from PRESSURE or RECOVERY it moves directly
to DROPPING; from DROPPING it stays (no transition counted). -/
theorem bp_on_exhaustion_forces_dropping (s : BPState) (now_ns wall : Nat)
    (h : s.transitions + 2 < U64) :
    (ada_backpressure_state_on_exhaustion s now_ns wall).1.mode = .DROPPING ∧
    (ada_backpressure_state_on_exhaustion s now_ns wall).2 = spec_exhaustion_logs s.mode ∧
    (ada_backpressure_state_on_exhaustion s now_ns wall).1.transitions =
      s.transitions + (spec_exhaustion_logs s.mode).length := by
  simp only [U64] at h
  cases hm : s.mode <;>
    simp [ada_backpressure_state_on_exhaustion, bp_transition, spec_exhaustion_logs, hm,
      Nat.mod_add_mod, U64] <;>
    omega

/-- Witness for C10 at a concrete NORMAL-mode state (the
default-initialized state): exhaustion drives it to DROPPING via
PRESSURE with two logged transitions. -/
theorem bp_on_exhaustion_forces_dropping_witness :
    ((ada_backpressure_state_init none).transitions + 2 < U64) ∧
    (ada_backpressure_state_on_exhaustion (ada_backpressure_state_init none) 7 0).1.mode =
      .DROPPING ∧
    (ada_backpressure_state_on_exhaustion (ada_backpressure_state_init none) 7 0).2 =
      [(.NORMAL, .PRESSURE), (.PRESSURE, .DROPPING)] ∧
    (ada_backpressure_state_on_exhaustion (ada_backpressure_state_init none) 7 0).1.transitions
      = 2 := by
  have h := bp_on_exhaustion_forces_dropping (ada_backpressure_state_init none) 7 0 (by decide)
  exact ⟨by decide, h.1, h.2.1, h.2.2⟩

lemma bp_transition_low_watermark (s : BPState) (expected desired : BPMode) (now_ns : Nat) :
    (bp_transition s expected desired now_ns).1.low_watermark = s.low_watermark := by
  simp only [bp_transition]
  split_ifs <;> rfl

lemma bp_update_low_watermark_le (s : BPState) (free_rings : Nat) :
    (bp_update_low_watermark s free_rings).low_watermark ≤ s.low_watermark := by
  unfold bp_update_low_watermark
  split_ifs with h
  · simpa using le_of_lt h
  · exact le_refl _

lemma bp_apply_op_low_watermark (s : BPState) (op : BPOp) :
    (bp_apply_op s op).low_watermark ≤ s.low_watermark := by
  cases op with
  | sample free_rings now_ns wall =>
    have hbase := bp_update_low_watermark_le { s with free_rings := free_rings } free_rings
    simp only [bp_apply_op, ada_backpressure_state_sample]
    split_ifs <;>
      simp only [bp_transition_low_watermark] <;>
      exact hbase
  | onDrop dropped_bytes now_ns wall =>
    simp only [bp_apply_op, ada_backpressure_state_on_drop]
    exact le_refl _
  | onExhaustion now_ns wall =>
    simp only [bp_apply_op, ada_backpressure_state_on_exhaustion,
      bp_transition_low_watermark]
    exact le_refl _
  | onRecovery free_rings now_ns wall =>
    simp only [bp_apply_op, ada_backpressure_state_on_recovery]
    split_ifs <;> simp only [bp_transition_low_watermark] <;> exact le_refl _

/-- C8 (amended): over any sequence of sample / on_drop /
on_exhaustion / on_recovery calls, the raw `low_watermark` field is
monotonically non-increasing (it starts at the `UINT32_MAX` sentinel
and is only ever CAS'd downward) until a reset reinstates the
sentinel.  The *getter* is not monotone, because it reports the
untouched sentinel as 0: see the counterexample. -/
theorem bp_low_watermark_monotone (s : BPState) (ops : List BPOp) :
    (bp_run_ops s ops).low_watermark ≤ s.low_watermark := by
  induction ops generalizing s with
  | nil => exact le_refl _
  | cons op rest ih =>
    exact le_trans (ih (bp_apply_op s op)) (bp_apply_op_low_watermark s op)

lemma bp_transition_mode (s : BPState) (expected desired : BPMode) (now_ns : Nat) :
    (bp_transition s expected desired now_ns).1.mode =
      if s.mode = expected then desired else s.mode := by
  simp only [bp_transition]
  split_ifs <;> rfl

lemma bp_update_low_watermark_keeps (s : BPState) (free_rings : Nat) :
    (bp_update_low_watermark s free_rings).mode = s.mode ∧
    (bp_update_low_watermark s free_rings).config = s.config ∧
    (bp_update_low_watermark s free_rings).total_rings = s.total_rings ∧
    (bp_update_low_watermark s free_rings).recovery_candidate_ns = s.recovery_candidate_ns := by
  unfold bp_update_low_watermark
  split_ifs <;> exact ⟨rfl, rfl, rfl, rfl⟩

/-- C1: with `total_rings > 0` (and a pressure threshold repaired into
(0,100), as every stored config is), one `ada_backpressure_state_sample`
call advances the mode exactly per the spec's transition table
(`spec_sample_transition`), where "the free count has stayed recovered
for `recovery_stable_ns`" reads: a recovery candidate time is recorded
and `now_ns` is at least `recovery_stable_ns` past it. -/
theorem bp_sample_follows_spec_table (s : BPState) (free_rings now_ns wall : Nat)
    (hT : 0 < s.total_rings)
    (hp : 0 < s.config.pressure_threshold_percent)
    (hnow : now_ns ≠ 0)
    (hcand : s.recovery_candidate_ns ≤ now_ns)
    (hbound : now_ns < U64) :
    (ada_backpressure_state_sample s free_rings now_ns wall).1.mode =
      spec_sample_transition s free_rings now_ns := by
  have heff : bp_eff_now now_ns wall = now_ns := by
    unfold bp_eff_now
    rw [if_neg hnow]
  unfold ada_backpressure_state_sample spec_sample_transition
  set s1 := bp_update_low_watermark { s with free_rings := free_rings } free_rings with hs1
  have e_mode : s1.mode = s.mode := (bp_update_low_watermark_keeps _ _).1
  have e_cfg : s1.config = s.config := (bp_update_low_watermark_keeps _ _).2.1
  have e_tot : s1.total_rings = s.total_rings := (bp_update_low_watermark_keeps _ _).2.2.1
  have e_cand : s1.recovery_candidate_ns = s.recovery_candidate_ns :=
    (bp_update_low_watermark_keeps _ _).2.2.2
  have htot : bp_total_effective s1 = s.total_rings := by
    unfold bp_total_effective
    rw [e_tot, if_neg (by omega)]
  have hcrossed : ∀ pct, (bp_threshold_crossed pct (bp_total_effective s1) free_rings = true)
      ↔ free_rings * 100 < pct * s.total_rings := by
    intro pct
    unfold bp_threshold_crossed
    rw [htot, if_neg (by omega)]
    simp
  have hsub : u64_sub now_ns s.recovery_candidate_ns = now_ns - s.recovery_candidate_ns := by
    unfold u64_sub
    rw [Nat.mod_eq_of_lt (lt_of_le_of_lt hcand hbound)]
    unfold U64
    unfold U64 at hbound
    omega
  have hctrue : ∀ pct, free_rings * 100 < pct * s.total_rings →
      bp_threshold_crossed pct (bp_total_effective s1) free_rings = true :=
    fun pct h => (hcrossed pct).2 h
  have hcfalse : ∀ pct, ¬ free_rings * 100 < pct * s.total_rings →
      bp_threshold_crossed pct (bp_total_effective s1) free_rings = false := by
    intro pct h
    cases hb : bp_threshold_crossed pct (bp_total_effective s1) free_rings
    · rfl
    · exact absurd ((hcrossed pct).1 hb) h
  cases hm : s.mode with
  | NORMAL =>
    rw [hm] at e_mode
    by_cases hx : free_rings * 100 < s.config.pressure_threshold_percent * s.total_rings
    · simp [e_mode, e_cfg, hctrue _ hx, hx, bp_transition_mode]
    · simp [e_mode, e_cfg, hcfalse _ hx, hx]
  | PRESSURE =>
    rw [hm] at e_mode
    by_cases hz : free_rings = 0
    · have hx : free_rings * 100 < s.config.pressure_threshold_percent * s.total_rings := by
        subst hz
        simpa using Nat.mul_pos hp hT
      simp [e_mode, e_cfg, hz, hx, bp_transition_mode]
    · by_cases hx : free_rings * 100 < s.config.pressure_threshold_percent * s.total_rings
      · have hx2 : ¬ s.config.pressure_threshold_percent * s.total_rings ≤ free_rings * 100 :=
          by omega
        simp [e_mode, e_cfg, hz, hctrue _ hx, hx2]
      · have hx2 : s.config.pressure_threshold_percent * s.total_rings ≤ free_rings * 100 :=
          by omega
        simp [e_mode, e_cfg, hz, hcfalse _ hx, hx2, bp_transition_mode]
  | DROPPING =>
    rw [hm] at e_mode
    by_cases hx : free_rings * 100 < s.config.recovery_threshold_percent * s.total_rings
    · have hx2 : ¬ s.config.recovery_threshold_percent * s.total_rings ≤ free_rings * 100 :=
        by omega
      simp [e_mode, e_cfg, hctrue _ hx, hx2]
    · have hx2 : s.config.recovery_threshold_percent * s.total_rings ≤ free_rings * 100 :=
        by omega
      simp [e_mode, e_cfg, hcfalse _ hx, hx2, bp_transition_mode]
  | RECOVERY =>
    rw [hm] at e_mode
    by_cases hx : free_rings * 100 < s.config.pressure_threshold_percent * s.total_rings
    · simp [e_mode, e_cfg, hctrue _ hx, hx, bp_transition_mode]
    · by_cases hz : s.recovery_candidate_ns = 0
      · simp [e_mode, e_cfg, e_cand, hcfalse _ hx, hx, hz]
      · by_cases hs : s.config.recovery_stable_ns ≤ now_ns - s.recovery_candidate_ns
        · simp [e_mode, e_cfg, e_cand, hcfalse _ hx, hx, hz, heff, hsub, hs,
            bp_transition_mode]
        · simp [e_mode, e_cfg, e_cand, hcfalse _ hx, hx, hz, heff, hsub, hs]

/-- Witness for C1 at a concrete PRESSURE-mode state with 4 total
rings, 0 free rings and `now = 5`: the sample moves the mode to
DROPPING as the table requires. -/
theorem bp_sample_follows_spec_table_witness :
    (0 <
      (BPState.mk .PRESSURE 1 0 0 0 1 4 1 0 0 2 0 bp_default_config).total_rings ∧
      0 < (BPState.mk .PRESSURE 1 0 0 0 1 4 1 0 0 2 0
        bp_default_config).config.pressure_threshold_percent ∧
      (5 : Nat) ≠ 0 ∧
      (BPState.mk .PRESSURE 1 0 0 0 1 4 1 0 0 2 0
        bp_default_config).recovery_candidate_ns ≤ 5 ∧
      5 < U64) ∧
    (ada_backpressure_state_sample
      (BPState.mk .PRESSURE 1 0 0 0 1 4 1 0 0 2 0 bp_default_config) 0 5 0).1.mode =
      spec_sample_transition
        (BPState.mk .PRESSURE 1 0 0 0 1 4 1 0 0 2 0 bp_default_config) 0 5 ∧
    spec_sample_transition
      (BPState.mk .PRESSURE 1 0 0 0 1 4 1 0 0 2 0 bp_default_config) 0 5 = .DROPPING := by
  refine ⟨⟨by decide, by decide, by decide, by decide, by decide⟩, ?_, by decide⟩
  exact bp_sample_follows_spec_table
    (BPState.mk .PRESSURE 1 0 0 0 1 4 1 0 0 2 0 bp_default_config) 0 5 0
    (by decide) (by decide) (by decide) (by decide) (by decide)

/-- C8 counterexample: immediately after init the getter reports 0 (the
`UINT32_MAX` sentinel), and the first sample with 5 free rings makes it
report 5 — the getter value strictly increases over the sequence, so it
is not monotonically non-increasing as claimed. -/
theorem bp_low_watermark_getter_counterexample :
    ada_backpressure_state_get_low_watermark (ada_backpressure_state_init none) = 0 ∧
    ada_backpressure_state_get_low_watermark
      (bp_run_ops (ada_backpressure_state_init none) [BPOp.sample 5 1 0]) = 5 ∧
    ada_backpressure_state_get_low_watermark (ada_backpressure_state_init none) <
      ada_backpressure_state_get_low_watermark
        (bp_run_ops (ada_backpressure_state_init none) [BPOp.sample 5 1 0]) := by
  exact ⟨by decide, by decide, by decide⟩

/-! ## Lemmas about the drain thread -/

lemma list_getD_set_self {α : Type} : ∀ (l : List α) (i : Nat) (v d : α),
    i < l.length → ((l.set i v)[i]?).getD d = v
  | [], i, v, d, h => by simp at h
  | a :: l, 0, v, d, h => by simp
  | a :: l, i + 1, v, d, h => by
    simpa using list_getD_set_self l i v d (by simpa using h)

lemma list_getD_set_ne {α : Type} : ∀ (l : List α) (i j : Nat) (v d : α),
    i ≠ j → ((l.set i v)[j]?).getD d = (l[j]?).getD d
  | [], i, j, v, d, h => by simp
  | a :: l, 0, 0, v, d, h => absurd rfl h
  | a :: l, 0, j + 1, v, d, h => by simp
  | a :: l, i + 1, 0, v, d, h => by simp
  | a :: l, i + 1, j + 1, v, d, h => by
    simpa using list_getD_set_ne l i j v d (fun he => h (by rw [he]))

lemma mem_rotation (cap start slot : Nat) (hstart : start < cap) (hslot : slot < cap) :
    slot ∈ (List.range cap).map (fun o => (start + o) % cap) := by
  rcases le_or_lt start slot with h | h
  · refine List.mem_map.2 ⟨slot - start, List.mem_range.2 (by omega), ?_⟩
    have : start + (slot - start) = slot := by omega
    rw [this, Nat.mod_eq_of_lt hslot]
  · refine List.mem_map.2 ⟨slot + cap - start, List.mem_range.2 (by omega), ?_⟩
    have : start + (slot + cap - start) = slot + cap := by omega
    rw [this, Nat.add_mod_right, Nat.mod_eq_of_lt hslot]

lemma rotation_mem_lt (cap start slot : Nat) (hcap : 0 < cap)
    (h : slot ∈ (List.range cap).map (fun o => (start + o) % cap)) : slot < cap := by
  obtain ⟨o, _, rfl⟩ := List.mem_map.1 h
  exact Nat.mod_lt _ hcap

lemma drain_lane_loop_spec : ∀ (submit free : List Nat) (limit : Nat),
    drain_lane_loop free limit submit =
      (free ++ submit.take limit, submit.drop limit, min limit submit.length)
  | [], free, limit => by simp [drain_lane_loop]
  | r :: rest, free, limit => by
    by_cases h : limit = 0
    · subst h
      simp [drain_lane_loop]
    · obtain ⟨k, rfl⟩ : ∃ k, limit = k + 1 := ⟨limit - 1, by omega⟩
      simp only [drain_lane_loop, if_neg h, Nat.add_sub_cancel]
      rw [drain_lane_loop_spec rest (free ++ [r]) k]
      simp [List.append_assoc, Nat.succ_min_succ]

lemma drain_lane_core_spec (limit : Nat) (l : Lane) :
    drain_lane_core limit l =
      ({ submit := l.submit.drop limit, free := l.free ++ l.submit.take limit },
        min limit l.submit.length,
        decide (limit ≠ UINT32_MAX ∧ min limit l.submit.length = limit)) := by
  unfold drain_lane_core
  rw [drain_lane_loop_spec]

lemma compute_effective_limit_pos (config : DrainConfig) (final_pass : Bool) :
    0 < compute_effective_limit config final_pass := by
  simp only [compute_effective_limit, UINT32_MAX]
  split_ifs <;> omega

lemma compute_effective_limit_final (config : DrainConfig) :
    compute_effective_limit config true = UINT32_MAX := rfl

lemma drain_lane_keeps (d : DrainThread) (slot_index : Nat) (lane : Option Lane)
    (is_detail final_pass : Bool) :
    (drain_lane d slot_index lane is_detail final_pass).drain.state = d.state ∧
    (drain_lane d slot_index lane is_detail final_pass).drain.thread_started =
      d.thread_started ∧
    (drain_lane d slot_index lane is_detail final_pass).drain.config = d.config ∧
    (drain_lane d slot_index lane is_detail final_pass).drain.registry = d.registry ∧
    (drain_lane d slot_index lane is_detail final_pass).drain.metrics.fairness_switches =
      d.metrics.fairness_switches ∧
    (drain_lane d slot_index lane is_detail final_pass).drain.metrics.writer_handoffs =
      d.metrics.writer_handoffs := by
  cases lane with
  | none => exact ⟨rfl, rfl, rfl, rfl, rfl, rfl⟩
  | some l =>
    simp only [drain_lane]
    split_ifs <;> exact ⟨rfl, rfl, rfl, rfl, rfl, rfl⟩

lemma drain_lane_parts (d : DrainThread) (slot_index : Nat) (l : Lane)
    (is_detail final_pass : Bool) :
    (drain_lane d slot_index (some l) is_detail final_pass).lane =
      some (drain_lane_core (compute_effective_limit d.config final_pass) l).1 ∧
    (drain_lane d slot_index (some l) is_detail final_pass).processed =
      (drain_lane_core (compute_effective_limit d.config final_pass) l).2.1 ∧
    (drain_lane d slot_index (some l) is_detail final_pass).hit_limit =
      (drain_lane_core (compute_effective_limit d.config final_pass) l).2.2 := by
  by_cases h : (drain_lane_core (compute_effective_limit d.config final_pass) l).2.1 = 0
  all_goals simp [drain_lane, h]

lemma drain_thread_stop_unstarted (e : DrainThread) (h : e.thread_started = false)
    (fuel now_ns : Nat) : (drain_thread_stop e fuel now_ns).1 = 0 := by
  cases hst : e.state <;> simp [drain_thread_stop, hst, h]

/-- C4: drain lifecycle idempotence: start on a RUNNING drain returns 0
and changes nothing; start on a STOPPING or STOPPED drain fails with
`-EALREADY`; stop in state INITIALIZED (before any start) returns 0 and
changes nothing; and a second stop after any stop returns 0. -/
theorem drain_lifecycle_idempotent (d : DrainThread) (fuel now_ns fuel2 now2 : Nat) :
    (d.state = .RUNNING → drain_thread_start d = (0, d)) ∧
    ((d.state = .STOPPING ∨ d.state = .STOPPED) →
      (drain_thread_start d).1 = -EALREADY ∧ (drain_thread_start d).2 = d) ∧
    (d.state = .INITIALIZED → drain_thread_stop d fuel now_ns = (0, d)) ∧
    (drain_thread_stop (drain_thread_stop d fuel now_ns).2 fuel2 now2).1 = 0 := by
  refine ⟨?_, ?_, ?_, ?_⟩
  · intro h
    simp [drain_thread_start, h]
  · rintro (h | h) <;> simp [drain_thread_start, h]
  · intro h
    simp [drain_thread_stop, h]
  · cases hst : d.state with
    | INITIALIZED => simp [drain_thread_stop, hst]
    | STOPPED =>
      by_cases hts : d.thread_started = true
      · have h1 : (drain_thread_stop d fuel now_ns).2 = { d with thread_started := false } := by
          simp [drain_thread_stop, hst, hts]
        rw [h1]
        exact drain_thread_stop_unstarted _ rfl _ _
      · have hf : d.thread_started = false := by
          revert hts
          cases d.thread_started <;> simp
        have h1 : (drain_thread_stop d fuel now_ns).2 = d := by
          simp [drain_thread_stop, hst, hf]
        rw [h1]
        exact drain_thread_stop_unstarted _ hf _ _
    | RUNNING =>
      by_cases hts : d.thread_started = true
      · have h1 : (drain_thread_stop d fuel now_ns).2 =
            { (drain_worker_on_stop { d with state := .STOPPING } fuel now_ns).1 with
              thread_started := false } := by
          simp [drain_thread_stop, hst, hts]
        rw [h1]
        exact drain_thread_stop_unstarted _ rfl _ _
      · have hf : d.thread_started = false := by
          revert hts
          cases d.thread_started <;> simp
        have h1 : (drain_thread_stop d fuel now_ns).2 = { d with state := .STOPPING } := by
          simp [drain_thread_stop, hst, hf]
        rw [h1]
        exact drain_thread_stop_unstarted { d with state := .STOPPING } hf _ _
    | STOPPING =>
      by_cases hts : d.thread_started = true
      · have h1 : (drain_thread_stop d fuel now_ns).2 =
            { (drain_worker_on_stop d fuel now_ns).1 with thread_started := false } := by
          simp [drain_thread_stop, hst, hts]
        rw [h1]
        exact drain_thread_stop_unstarted _ rfl _ _
      · have hf : d.thread_started = false := by
          revert hts
          cases d.thread_started <;> simp
        have h1 : (drain_thread_stop d fuel now_ns).2 = d := by
          simp [drain_thread_stop, hst, hf]
        rw [h1]
        exact drain_thread_stop_unstarted _ hf _ _
    | UNINITIALIZED =>
      by_cases hts : d.thread_started = true
      · have h1 : (drain_thread_stop d fuel now_ns).2 =
            { (drain_worker_on_stop d fuel now_ns).1 with thread_started := false } := by
          simp [drain_thread_stop, hst, hts]
        rw [h1]
        exact drain_thread_stop_unstarted _ rfl _ _
      · have hf : d.thread_started = false := by
          revert hts
          cases d.thread_started <;> simp
        have h1 : (drain_thread_stop d fuel now_ns).2 = d := by
          simp [drain_thread_stop, hst, hf]
        rw [h1]
        exact drain_thread_stop_unstarted _ hf _ _

/-- Witness for C4 at concrete drains in each relevant state (one
slot-less registry, default config). -/
theorem drain_lifecycle_idempotent_witness :
    drain_thread_start
      (DrainThread.mk .RUNNING ⟨[]⟩ drain_config_default true 0 0 drain_metrics_atomic_reset) =
      (0, DrainThread.mk .RUNNING ⟨[]⟩ drain_config_default true 0 0
        drain_metrics_atomic_reset) ∧
    (drain_thread_start
      (DrainThread.mk .STOPPING ⟨[]⟩ drain_config_default true 0 0
        drain_metrics_atomic_reset)).1 = -EALREADY ∧
    (drain_thread_start
      (DrainThread.mk .STOPPED ⟨[]⟩ drain_config_default false 0 0
        drain_metrics_atomic_reset)).1 = -EALREADY ∧
    drain_thread_stop
      (DrainThread.mk .INITIALIZED ⟨[]⟩ drain_config_default false 0 0
        drain_metrics_atomic_reset) 3 9 =
      (0, DrainThread.mk .INITIALIZED ⟨[]⟩ drain_config_default false 0 0
        drain_metrics_atomic_reset) ∧
    (drain_thread_stop
      (drain_thread_stop
        (DrainThread.mk .RUNNING ⟨[]⟩ drain_config_default true 0 0
          drain_metrics_atomic_reset) 3 9).2 3 9).1 = 0 := by
  refine ⟨?_, ?_, ?_, ?_, ?_⟩
  · exact (drain_lifecycle_idempotent
      (DrainThread.mk .RUNNING ⟨[]⟩ drain_config_default true 0 0 drain_metrics_atomic_reset)
      3 9 3 9).1 rfl
  · exact ((drain_lifecycle_idempotent
      (DrainThread.mk .STOPPING ⟨[]⟩ drain_config_default true 0 0 drain_metrics_atomic_reset)
      3 9 3 9).2.1 (Or.inl rfl)).1
  · exact ((drain_lifecycle_idempotent
      (DrainThread.mk .STOPPED ⟨[]⟩ drain_config_default false 0 0 drain_metrics_atomic_reset)
      3 9 3 9).2.1 (Or.inr rfl)).1
  · exact (drain_lifecycle_idempotent
      (DrainThread.mk .INITIALIZED ⟨[]⟩ drain_config_default false 0 0
        drain_metrics_atomic_reset) 3 9 3 9).2.2.1 rfl
  · exact (drain_lifecycle_idempotent
      (DrainThread.mk .RUNNING ⟨[]⟩ drain_config_default true 0 0 drain_metrics_atomic_reset)
      3 9 3 9).2.2.2

lemma list_take_min (xs : List Nat) (n : Nat) : xs.take (min n xs.length) = xs.take n := by
  rcases le_or_lt n xs.length with h | h
  · rw [min_eq_left h]
  · rw [min_eq_right (le_of_lt h), List.take_of_length_le (le_refl _),
      List.take_of_length_le (le_of_lt h)]

lemma list_drop_min (xs : List Nat) (n : Nat) : xs.drop (min n xs.length) = xs.drop n := by
  rcases le_or_lt n xs.length with h | h
  · rw [min_eq_left h]
  · rw [min_eq_right (le_of_lt h), List.drop_of_length_le (le_refl _),
      List.drop_of_length_le (le_of_lt h)]

/-- C3 counterexample: a concrete `drain_lane` call that takes one ring
from the submit queue (`processed = 1`, ring 7 moved to the free queue)
while the ghost `writer_handoffs` record stays empty: the drain never
hands the ring's bytes to any per-thread file writer (no writer exists
in the drain sources), refuting the writer-handoff part of the claim. -/
theorem drain_lane_no_writer_handoff_counterexample :
    (drain_lane (DrainThread.mk .RUNNING ⟨[]⟩ drain_config_default true 0 0
      drain_metrics_atomic_reset) 0 (some ⟨[7], []⟩) false false).processed = 1 ∧
    (drain_lane (DrainThread.mk .RUNNING ⟨[]⟩ drain_config_default true 0 0
      drain_metrics_atomic_reset) 0 (some ⟨[7], []⟩) false false).lane =
      some ⟨[], [7]⟩ ∧
    (drain_lane (DrainThread.mk .RUNNING ⟨[]⟩ drain_config_default true 0 0
      drain_metrics_atomic_reset) 0 (some ⟨[7], []⟩) false
      false).drain.metrics.writer_handoffs = [] := by
  exact ⟨by decide, by decide, by decide⟩

/-- C3 (amended): for every ring the drain takes from a lane's submit
queue, the drain increments `rings_total`, the matching `rings_index`
or `rings_detail` counter and the per-thread ring count for that slot
and lane, and returns the ring to the lane's free queue (in FIFO
order); no bytes are handed to a file writer.  The processed count is
`min(effective limit, submit length)`. -/
theorem drain_lane_ring_accounting (d : DrainThread) (slot_index : Nat) (l : Lane)
    (is_detail final_pass : Bool)
    (hslot : slot_index < MAX_THREADS)
    (hleni : d.metrics.per_thread_index_rings.length = MAX_THREADS)
    (hlend : d.metrics.per_thread_detail_rings.length = MAX_THREADS)
    (hrt : d.metrics.rings_total + l.submit.length < U64)
    (hri : d.metrics.rings_index + l.submit.length < U64)
    (hrd : d.metrics.rings_detail + l.submit.length < U64)
    (hpi : d.metrics.per_thread_index_rings.getD slot_index 0 + l.submit.length < U64)
    (hpd : d.metrics.per_thread_detail_rings.getD slot_index 0 + l.submit.length < U64) :
    (drain_lane d slot_index (some l) is_detail final_pass).processed =
      min (compute_effective_limit d.config final_pass) l.submit.length ∧
    (drain_lane d slot_index (some l) is_detail final_pass).lane = some
      { submit := l.submit.drop
          (min (compute_effective_limit d.config final_pass) l.submit.length)
        free := l.free ++ l.submit.take
          (min (compute_effective_limit d.config final_pass) l.submit.length) } ∧
    (drain_lane d slot_index (some l) is_detail final_pass).drain.metrics.rings_total =
      d.metrics.rings_total +
        min (compute_effective_limit d.config final_pass) l.submit.length ∧
    (drain_lane d slot_index (some l) is_detail final_pass).drain.metrics.rings_index =
      d.metrics.rings_index + (if is_detail then 0 else
        min (compute_effective_limit d.config final_pass) l.submit.length) ∧
    (drain_lane d slot_index (some l) is_detail final_pass).drain.metrics.rings_detail =
      d.metrics.rings_detail + (if is_detail then
        min (compute_effective_limit d.config final_pass) l.submit.length else 0) ∧
    (drain_lane d slot_index (some l) is_detail
        final_pass).drain.metrics.per_thread_index_rings.getD slot_index 0 =
      d.metrics.per_thread_index_rings.getD slot_index 0 + (if is_detail then 0 else
        min (compute_effective_limit d.config final_pass) l.submit.length) ∧
    (drain_lane d slot_index (some l) is_detail
        final_pass).drain.metrics.per_thread_detail_rings.getD slot_index 0 =
      d.metrics.per_thread_detail_rings.getD slot_index 0 + (if is_detail then
        min (compute_effective_limit d.config final_pass) l.submit.length else 0) ∧
    (drain_lane d slot_index (some l) is_detail
        final_pass).drain.metrics.writer_handoffs = d.metrics.writer_handoffs := by
  have hple : min (compute_effective_limit d.config final_pass) l.submit.length ≤
      l.submit.length := Nat.min_le_right _ _
  by_cases h0 : min (compute_effective_limit d.config final_pass) l.submit.length = 0
  · have hnil : l.submit = [] := List.length_eq_zero.1
      (by have := compute_effective_limit_pos d.config final_pass; omega)
    cases is_detail <;> simp [drain_lane, drain_lane_core_spec, hnil]
  · have hc0 : ¬ (drain_lane_core (compute_effective_limit d.config final_pass) l).2.1 = 0 := by
      rw [drain_lane_core_spec]
      exact h0
    have slen_i : slot_index < d.metrics.per_thread_index_rings.length := by
      rw [hleni]
      exact hslot
    have slen_d : slot_index < d.metrics.per_thread_detail_rings.length := by
      rw [hlend]
      exact hslot
    have e1 : (d.metrics.rings_total +
        min (compute_effective_limit d.config final_pass) l.submit.length) % U64 =
        d.metrics.rings_total +
          min (compute_effective_limit d.config final_pass) l.submit.length :=
      Nat.mod_eq_of_lt (by omega)
    have e2 : (d.metrics.rings_index +
        min (compute_effective_limit d.config final_pass) l.submit.length) % U64 =
        d.metrics.rings_index +
          min (compute_effective_limit d.config final_pass) l.submit.length :=
      Nat.mod_eq_of_lt (by omega)
    have e3 : (d.metrics.rings_detail +
        min (compute_effective_limit d.config final_pass) l.submit.length) % U64 =
        d.metrics.rings_detail +
          min (compute_effective_limit d.config final_pass) l.submit.length :=
      Nat.mod_eq_of_lt (by omega)
    have e4 : ((d.metrics.per_thread_index_rings[slot_index]?).getD 0 +
        min (compute_effective_limit d.config final_pass) l.submit.length) % U64 =
        (d.metrics.per_thread_index_rings[slot_index]?).getD 0 +
          min (compute_effective_limit d.config final_pass) l.submit.length :=
      Nat.mod_eq_of_lt (by rw [← List.getD_eq_getElem?_getD]; omega)
    have e5 : ((d.metrics.per_thread_detail_rings[slot_index]?).getD 0 +
        min (compute_effective_limit d.config final_pass) l.submit.length) % U64 =
        (d.metrics.per_thread_detail_rings[slot_index]?).getD 0 +
          min (compute_effective_limit d.config final_pass) l.submit.length :=
      Nat.mod_eq_of_lt (by rw [← List.getD_eq_getElem?_getD]; omega)
    simp only [drain_lane]
    rw [if_neg hc0]
    cases is_detail <;>
      simp [drain_lane_core_spec, hslot, e1, e2, e3, e4, e5,
        list_getD_set_self _ _ _ _ slen_i, list_getD_set_self _ _ _ _ slen_d,
        list_take_min, list_drop_min]

/-- Witness for C3's amended accounting at a concrete detail-lane drain
of one ring from slot 0. -/
theorem drain_lane_ring_accounting_witness :
    ((0 : Nat) < MAX_THREADS ∧
      (drain_metrics_atomic_reset.per_thread_index_rings.length = MAX_THREADS) ∧
      (drain_metrics_atomic_reset.per_thread_detail_rings.length = MAX_THREADS)) ∧
    (drain_lane (DrainThread.mk .RUNNING ⟨[]⟩ drain_config_default true 0 0
      drain_metrics_atomic_reset) 0 (some ⟨[7], []⟩) true false).processed =
      min (compute_effective_limit drain_config_default false)
        (Lane.mk [7] []).submit.length := by
  refine ⟨⟨by decide, by decide, by decide⟩, ?_⟩
  exact (drain_lane_ring_accounting
    (DrainThread.mk .RUNNING ⟨[]⟩ drain_config_default true 0 0 drain_metrics_atomic_reset)
    0 ⟨[7], []⟩ true false (by decide) (by decide) (by decide) (by decide) (by decide)
    (by decide) (by decide) (by decide)).1

lemma drain_lane_lane_eq (d : DrainThread) (slot_index : Nat) (lane : Option Lane)
    (is_detail final_pass : Bool) :
    (drain_lane d slot_index lane is_detail final_pass).lane =
      lane_drained_opt d.config final_pass lane := by
  cases lane with
  | none => rfl
  | some l => exact (drain_lane_parts d slot_index l is_detail final_pass).1

lemma drain_lane_hit_eq (d : DrainThread) (slot_index : Nat) (lane : Option Lane)
    (is_detail final_pass : Bool) :
    (drain_lane d slot_index lane is_detail final_pass).hit_limit =
      lane_hit_flag d.config final_pass lane := by
  cases lane with
  | none => rfl
  | some l => exact (drain_lane_parts d slot_index l is_detail final_pass).2.2

lemma drain_lane_processed_le (d : DrainThread) (slot_index : Nat) (lane : Option Lane)
    (is_detail final_pass : Bool) :
    (drain_lane d slot_index lane is_detail final_pass).processed ≤
      compute_effective_limit d.config final_pass := by
  cases lane with
  | none => exact Nat.zero_le _
  | some l =>
    rw [(drain_lane_parts d slot_index l is_detail final_pass).2.1, drain_lane_core_spec]
    exact Nat.min_le_left _ _

lemma compute_effective_limit_nonfinal (config : DrainConfig) :
    compute_effective_limit config false =
      (if config.max_batch_size = 0 ∧ config.fairness_quantum = 0 then UINT32_MAX
      else if config.max_batch_size = 0 then config.fairness_quantum
      else if config.fairness_quantum = 0 then config.max_batch_size
      else min config.max_batch_size config.fairness_quantum) := by
  by_cases hb : config.max_batch_size = 0 <;> by_cases hq : config.fairness_quantum = 0
  · simp [compute_effective_limit, hb, hq]
  · simp [compute_effective_limit, hb, hq]
  · simp [compute_effective_limit, hb, hq]
  · rcases lt_or_ge config.fairness_quantum config.max_batch_size with h | h
    · have h0q : 0 < config.fairness_quantum := Nat.pos_of_ne_zero hq
      simp [compute_effective_limit, hb, hq, h, h0q, min_eq_right (le_of_lt h)]
    · have hnot : ¬ (0 < config.fairness_quantum ∧
          config.fairness_quantum < config.max_batch_size) := by omega
      simp [compute_effective_limit, hb, hq, hnot, min_eq_left h]

lemma drain_slot_step_spec (d : DrainThread) (slot : Nat) (lanes : ThreadLaneSet)
    (final_pass : Bool) :
    (drain_slot_step d slot lanes final_pass).1.state = d.state ∧
    (drain_slot_step d slot lanes final_pass).1.thread_started = d.thread_started ∧
    (drain_slot_step d slot lanes final_pass).1.config = d.config ∧
    (drain_slot_step d slot lanes final_pass).1.registry =
      { slots := d.registry.slots.set slot
          (some { index_lane := lane_drained_opt d.config final_pass lanes.index_lane
                  detail_lane := lane_drained_opt d.config final_pass lanes.detail_lane }) } ∧
    (drain_slot_step d slot lanes final_pass).1.metrics.fairness_switches =
      fair_bump (fair_bump d.metrics.fairness_switches
          (lane_hit_flag d.config final_pass lanes.index_lane))
        (lane_hit_flag d.config final_pass lanes.detail_lane) ∧
    (drain_slot_step d slot lanes final_pass).1.metrics.writer_handoffs =
      d.metrics.writer_handoffs ∧
    (drain_slot_step d slot lanes final_pass).2 =
      (decide (0 < lane_processed_opt d.config final_pass lanes.index_lane) ||
        decide (0 < lane_processed_opt d.config final_pass lanes.detail_lane)) := by
  obtain ⟨k1s, k1t, k1c, k1r, k1f, k1w⟩ :=
    drain_lane_keeps d slot lanes.index_lane false final_pass
  have hit1 := drain_lane_hit_eq d slot lanes.index_lane false final_pass
  have lane1 := drain_lane_lane_eq d slot lanes.index_lane false final_pass
  have proc1 : (drain_lane d slot lanes.index_lane false final_pass).processed =
      lane_processed_opt d.config final_pass lanes.index_lane := by
    cases hl : lanes.index_lane with
    | none => rfl
    | some l => exact (drain_lane_parts d slot l false final_pass).2.1
  simp only [drain_slot_step]
  set d1 : DrainThread :=
    { (drain_lane d slot lanes.index_lane false final_pass).drain with
      metrics := { (drain_lane d slot lanes.index_lane false final_pass).drain.metrics with
        fairness_switches := fair_bump
          (drain_lane d slot lanes.index_lane false final_pass).drain.metrics.fairness_switches
          (drain_lane d slot lanes.index_lane false final_pass).hit_limit } } with hd1
  obtain ⟨k2s, k2t, k2c, k2r, k2f, k2w⟩ :=
    drain_lane_keeps d1 slot lanes.detail_lane true final_pass
  have hd1c : d1.config = d.config := k1c
  have hit2 := drain_lane_hit_eq d1 slot lanes.detail_lane true final_pass
  have lane2 := drain_lane_lane_eq d1 slot lanes.detail_lane true final_pass
  have proc2 : (drain_lane d1 slot lanes.detail_lane true final_pass).processed =
      lane_processed_opt d1.config final_pass lanes.detail_lane := by
    cases hl : lanes.detail_lane with
    | none => rfl
    | some l => exact (drain_lane_parts d1 slot l true final_pass).2.1
  rw [hd1c] at hit2 lane2 proc2
  refine ⟨k2s.trans k1s, k2t.trans k1t, k2c.trans k1c, ?_, ?_, k2w.trans k1w, ?_⟩
  · have e : ({ (drain_lane d1 slot lanes.detail_lane true final_pass).drain with
        metrics := { (drain_lane d1 slot lanes.detail_lane true
            final_pass).drain.metrics with
          fairness_switches := fair_bump
            (drain_lane d1 slot lanes.detail_lane true
              final_pass).drain.metrics.fairness_switches
            (drain_lane d1 slot lanes.detail_lane true final_pass).hit_limit } } :
        DrainThread).registry =
        (drain_lane d1 slot lanes.detail_lane true final_pass).drain.registry := rfl
    simp only [e, k2r, k1r, lane1, lane2]
  · have e : ({ (drain_lane d1 slot lanes.detail_lane true final_pass).drain with
        metrics := { (drain_lane d1 slot lanes.detail_lane true
            final_pass).drain.metrics with
          fairness_switches := fair_bump
            (drain_lane d1 slot lanes.detail_lane true
              final_pass).drain.metrics.fairness_switches
            (drain_lane d1 slot lanes.detail_lane true final_pass).hit_limit } } :
        DrainThread).metrics.fairness_switches = fair_bump
          (drain_lane d1 slot lanes.detail_lane true
            final_pass).drain.metrics.fairness_switches
          (drain_lane d1 slot lanes.detail_lane true final_pass).hit_limit := rfl
    simp only [e, k2f, hit2, k1f, hit1]
  · rw [proc1, proc2]

lemma drain_cycle_go_fairness : ∀ (offsets : List Nat) (d : DrainThread) (final_pass : Bool)
    (start capacity : Nat) (work_done : Bool),
    d.metrics.fairness_switches < U64 →
    (drain_cycle_go d final_pass start capacity offsets work_done).1.metrics.fairness_switches
      = (d.metrics.fairness_switches +
          drain_cycle_hits_go d.config final_pass start capacity d.registry offsets) % U64 := by
  intro offsets
  induction offsets with
  | nil =>
    intro d final_pass start capacity work_done h
    simp [drain_cycle_go, drain_cycle_hits_go, Nat.mod_eq_of_lt h]
  | cons o rest ih =>
    intro d final_pass start capacity work_done h
    simp only [drain_cycle_go, drain_cycle_hits_go]
    rcases hta : thread_registry_get_thread_at d.registry ((start + o) % capacity)
      with _ | lanes
    · simp only [hta]
      exact ih d final_pass start capacity work_done h
    · simp only [hta]
      obtain ⟨hs, ht, hc, hr, hf, hw, hwork⟩ :=
        drain_slot_step_spec d ((start + o) % capacity) lanes final_pass
      have hU : 0 < U64 := by norm_num [U64]
      have hlt : (drain_slot_step d ((start + o) % capacity) lanes
          final_pass).1.metrics.fairness_switches < U64 := by
        rw [hf]
        unfold fair_bump
        split_ifs <;> first | exact Nat.mod_lt _ hU | exact h
      rw [ih (drain_slot_step d ((start + o) % capacity) lanes final_pass).1 final_pass
        start capacity _ hlt, hf, hc, hr]
      cases lane_hit_flag d.config final_pass lanes.index_lane <;>
        cases lane_hit_flag d.config final_pass lanes.detail_lane <;>
          simp [fair_bump, Nat.mod_add_mod, Nat.add_assoc]
      all_goals (congr 1; omega)

/-- C7: in a non-final drain cycle, each lane is drained of at most
the effective limit, which is `min(max_batch_size, fairness_quantum)`
when both are nonzero (a zero value means that bound does not apply,
both zero means unbounded, i.e. the `UINT32_MAX` sentinel); and
`fairness_switches` is incremented once for each lane whose drain
stopped because it hit this limit (`drain_cycle_hits`). -/
theorem drain_cycle_fairness_and_quantum (d : DrainThread) (slot_index : Nat)
    (lane : Option Lane) (is_detail : Bool) (now_ns : Nat)
    (hfs : d.metrics.fairness_switches < U64) :
    (drain_lane d slot_index lane is_detail false).processed ≤
      compute_effective_limit d.config false ∧
    compute_effective_limit d.config false =
      (if d.config.max_batch_size = 0 ∧ d.config.fairness_quantum = 0 then UINT32_MAX
       else if d.config.max_batch_size = 0 then d.config.fairness_quantum
       else if d.config.fairness_quantum = 0 then d.config.max_batch_size
       else min d.config.max_batch_size d.config.fairness_quantum) ∧
    (drain_cycle d false now_ns).1.metrics.fairness_switches =
      (d.metrics.fairness_switches + drain_cycle_hits d false) % U64 := by
  refine ⟨drain_lane_processed_le _ _ _ _ _, compute_effective_limit_nonfinal _, ?_⟩
  unfold drain_cycle drain_cycle_hits
  dsimp only
  by_cases hcap : thread_registry_get_capacity d.registry = 0
  · simp [hcap, Nat.mod_eq_of_lt hfs]
  · simp only [if_neg hcap]
    exact drain_cycle_go_fairness _ d false _ _ false hfs

/-- Witness for C7 at a concrete drain: one slot whose index lane has
9 submitted rings under the default 8/8 config: the cycle drains 8,
hits the limit once, and `fairness_switches` counts it. -/
theorem drain_cycle_fairness_and_quantum_witness :
    ((DrainThread.mk .RUNNING
        ⟨[some ⟨some ⟨[1, 2, 3, 4, 5, 6, 7, 8, 9], []⟩, none⟩]⟩ drain_config_default true
        0 0 drain_metrics_atomic_reset).metrics.fairness_switches < U64) ∧
    (drain_cycle (DrainThread.mk .RUNNING
        ⟨[some ⟨some ⟨[1, 2, 3, 4, 5, 6, 7, 8, 9], []⟩, none⟩]⟩ drain_config_default true
        0 0 drain_metrics_atomic_reset) false 9).1.metrics.fairness_switches =
      (0 + drain_cycle_hits (DrainThread.mk .RUNNING
        ⟨[some ⟨some ⟨[1, 2, 3, 4, 5, 6, 7, 8, 9], []⟩, none⟩]⟩ drain_config_default true
        0 0 drain_metrics_atomic_reset) false) % U64 ∧
    drain_cycle_hits (DrainThread.mk .RUNNING
        ⟨[some ⟨some ⟨[1, 2, 3, 4, 5, 6, 7, 8, 9], []⟩, none⟩]⟩ drain_config_default true
        0 0 drain_metrics_atomic_reset) false = 1 := by
  refine ⟨by decide, ?_, by decide⟩
  exact (drain_cycle_fairness_and_quantum (DrainThread.mk .RUNNING
    ⟨[some ⟨some ⟨[1, 2, 3, 4, 5, 6, 7, 8, 9], []⟩, none⟩]⟩ drain_config_default true
    0 0 drain_metrics_atomic_reset) 0 none false 9 (by decide)).2.2

lemma registry_lanes_prop_set (P : Lane → Prop) (reg : ThreadRegistry) (slot : Nat)
    (ls1 : ThreadLaneSet) (hb : registry_lanes_prop P reg)
    (hls : ∀ l, (ls1.index_lane = some l ∨ ls1.detail_lane = some l) → P l) :
    registry_lanes_prop P { slots := reg.slots.set slot (some ls1) } := by
  intro s ls hget l hl
  by_cases hlen : slot < reg.slots.length
  · by_cases heq : slot = s
    · subst heq
      rw [List.getD_eq_getElem?_getD, list_getD_set_self _ _ _ _ hlen] at hget
      injection hget with h
      subst h
      exact hls l hl
    · rw [List.getD_eq_getElem?_getD, list_getD_set_ne _ _ _ _ _ heq,
        ← List.getD_eq_getElem?_getD] at hget
      exact hb s ls hget l hl
  · rw [List.set_eq_of_length_le (by omega)] at hget
    exact hb s ls hget l hl

lemma lane_final_drained_idem (l : Lane) :
    lane_final_drained (lane_final_drained l) = lane_final_drained l := by
  simp [lane_final_drained]

lemma laneset_final_drained_idem (ls : ThreadLaneSet) :
    laneset_final_drained (laneset_final_drained ls) = laneset_final_drained ls := by
  obtain ⟨il, dl⟩ := ls
  cases il <;> cases dl <;> simp [laneset_final_drained, lane_final_drained_idem]

lemma option_map_final_idem (x : Option ThreadLaneSet) :
    (x.map laneset_final_drained).map laneset_final_drained =
      x.map laneset_final_drained := by
  cases x <;> simp [laneset_final_drained_idem]

lemma lane_drained_opt_final (config : DrainConfig) (ln : Option Lane)
    (hb : ∀ l, ln = some l → l.submit.length < UINT32_MAX) :
    lane_drained_opt config true ln = ln.map lane_final_drained := by
  cases ln with
  | none => rfl
  | some l =>
    simp only [lane_drained_opt, compute_effective_limit_final, drain_lane_core_spec,
      Option.map_some']
    have hlen := hb l rfl
    simp [lane_final_drained, List.drop_of_length_le (le_of_lt hlen),
      List.take_of_length_le (le_of_lt hlen)]

lemma tr_slots_mk (L : List (Option ThreadLaneSet)) :
    ({ slots := L } : ThreadRegistry).slots = L := rfl

lemma drain_cycle_go_final_registry : ∀ (offsets : List Nat) (d : DrainThread)
    (start capacity : Nat) (work_done : Bool),
    registry_submit_bounded d.registry UINT32_MAX →
    ∀ slot : Nat,
      (drain_cycle_go d true start capacity offsets work_done).1.registry.slots.getD slot none
        = (if slot ∈ offsets.map (fun o => (start + o) % capacity) then
            (d.registry.slots.getD slot none).map laneset_final_drained
          else d.registry.slots.getD slot none) := by
  intro offsets
  induction offsets with
  | nil =>
    intro d start capacity work_done hb slot
    simp [drain_cycle_go]
  | cons o rest ih =>
    intro d start capacity work_done hb slot
    simp only [drain_cycle_go]
    rcases hta : thread_registry_get_thread_at d.registry ((start + o) % capacity)
      with _ | lanes
    · simp only [hta]
      have hta2 : d.registry.slots.getD ((start + o) % capacity) none = none := hta
      have hta2e : (d.registry.slots[(start + o) % capacity]?).getD none = none := by
        rw [← List.getD_eq_getElem?_getD]
        exact hta2
      rw [ih d start capacity work_done hb slot]
      by_cases hmem : slot ∈ rest.map (fun x => (start + x) % capacity)
      · simp [List.mem_cons, hmem]
      · simp only [if_neg hmem]
        by_cases heq : slot = (start + o) % capacity
        · rw [heq, hta2]
          simp [List.mem_cons, hmem, hta2, hta2e]
        · simp [List.mem_cons, heq, hmem]
    · simp only [hta]
      have hta2 : d.registry.slots.getD ((start + o) % capacity) none = some lanes := hta
      obtain ⟨hs, ht, hc, hr, hf, hw, hwork⟩ :=
        drain_slot_step_spec d ((start + o) % capacity) lanes true
      have hbi : ∀ l, lanes.index_lane = some l → l.submit.length < UINT32_MAX :=
        fun l hl => hb _ lanes hta2 l (Or.inl hl)
      have hbd : ∀ l, lanes.detail_lane = some l → l.submit.length < UINT32_MAX :=
        fun l hl => hb _ lanes hta2 l (Or.inr hl)
      have hdr : (drain_slot_step d ((start + o) % capacity) lanes true).1.registry =
          { slots := d.registry.slots.set ((start + o) % capacity)
              (some (laneset_final_drained lanes)) } := by
        rw [hr, lane_drained_opt_final _ _ hbi, lane_drained_opt_final _ _ hbd]
        rfl
      have hstep_b : registry_submit_bounded
          (drain_slot_step d ((start + o) % capacity) lanes true).1.registry UINT32_MAX := by
        rw [hdr]
        apply registry_lanes_prop_set _ _ _ _ hb
        intro l hl
        have hnil : l.submit = [] := by
          rcases hl with hl | hl
          · rcases Option.map_eq_some'.mp hl with ⟨l0, _, rfl⟩
            rfl
          · rcases Option.map_eq_some'.mp hl with ⟨l0, _, rfl⟩
            rfl
        rw [hnil]
        norm_num [UINT32_MAX]
      rw [ih _ start capacity _ hstep_b slot, hdr]
      have hσlen : (start + o) % capacity < d.registry.slots.length := by
        by_contra hcon
        rw [List.getD_eq_default _ _ (by omega)] at hta2
        cases hta2
      simp only [tr_slots_mk]
      by_cases heq : slot = (start + o) % capacity
      · have hself : (d.registry.slots.set ((start + o) % capacity)
            (some (laneset_final_drained lanes))).getD slot none =
            some (laneset_final_drained lanes) := by
          rw [heq, List.getD_eq_getElem?_getD, list_getD_set_self _ _ _ _ hσlen]
        rw [hself, heq, hta2]
        by_cases hmem : ((start + o) % capacity) ∈ rest.map (fun x => (start + x) % capacity)
          <;> simp [List.mem_cons, hmem, laneset_final_drained_idem]
      · have hne : (d.registry.slots.set ((start + o) % capacity)
            (some (laneset_final_drained lanes))).getD slot none =
            d.registry.slots.getD slot none := by
          rw [List.getD_eq_getElem?_getD,
            list_getD_set_ne _ _ _ _ _ (fun hx => heq hx.symm),
            ← List.getD_eq_getElem?_getD]
        rw [hne]
        by_cases hmem : slot ∈ rest.map (fun x => (start + x) % capacity)
        · simp [List.mem_cons, hmem]
        · simp [List.mem_cons, heq, hmem]


lemma drain_cycle_go_keeps : ∀ (offsets : List Nat) (d : DrainThread) (final_pass : Bool)
    (start capacity : Nat) (work_done : Bool),
    (drain_cycle_go d final_pass start capacity offsets work_done).1.state = d.state ∧
    (drain_cycle_go d final_pass start capacity offsets work_done).1.thread_started =
      d.thread_started ∧
    (drain_cycle_go d final_pass start capacity offsets work_done).1.config = d.config ∧
    (drain_cycle_go d final_pass start capacity offsets
      work_done).1.metrics.writer_handoffs = d.metrics.writer_handoffs := by
  intro offsets
  induction offsets with
  | nil =>
    intro d final_pass start capacity work_done
    exact ⟨rfl, rfl, rfl, rfl⟩
  | cons o rest ih =>
    intro d final_pass start capacity work_done
    simp only [drain_cycle_go]
    rcases hta : thread_registry_get_thread_at d.registry ((start + o) % capacity)
      with _ | lanes
    · simp only [hta]
      exact ih d final_pass start capacity work_done
    · simp only [hta]
      obtain ⟨hs, ht, hc, hr, hf, hw, hwork⟩ :=
        drain_slot_step_spec d ((start + o) % capacity) lanes final_pass
      obtain ⟨is, it, ic, iw⟩ := ih (drain_slot_step d ((start + o) % capacity) lanes
        final_pass).1 final_pass start capacity (work_done ||
          (drain_slot_step d ((start + o) % capacity) lanes final_pass).2)
      exact ⟨is.trans hs, it.trans ht, ic.trans hc, iw.trans hw⟩

lemma drain_cycle_keeps (d : DrainThread) (final_pass : Bool) (now_ns : Nat) :
    (drain_cycle d final_pass now_ns).1.state = d.state ∧
    (drain_cycle d final_pass now_ns).1.thread_started = d.thread_started ∧
    (drain_cycle d final_pass now_ns).1.config = d.config ∧
    (drain_cycle d final_pass now_ns).1.metrics.writer_handoffs =
      d.metrics.writer_handoffs := by
  unfold drain_cycle
  dsimp only
  by_cases hcap : thread_registry_get_capacity d.registry = 0
  · rw [if_pos hcap]
    exact ⟨rfl, rfl, rfl, rfl⟩
  · rw [if_neg hcap]
    obtain ⟨a, b, c, e⟩ := drain_cycle_go_keeps
      (List.range (thread_registry_get_capacity d.registry)) d final_pass
      (if thread_registry_get_capacity d.registry ≤ d.rr_cursor then 0 else d.rr_cursor)
      (thread_registry_get_capacity d.registry) false
    exact ⟨a, b, c, e⟩

lemma drain_cycle_final_registry (d : DrainThread) (now_ns : Nat)
    (hb : registry_submit_bounded d.registry UINT32_MAX) (slot : Nat) :
    (drain_cycle d true now_ns).1.registry.slots.getD slot none =
      (d.registry.slots.getD slot none).map laneset_final_drained := by
  unfold drain_cycle
  dsimp only
  by_cases hcap : thread_registry_get_capacity d.registry = 0
  · rw [if_pos hcap]
    have hnil : d.registry.slots = [] := List.length_eq_zero.mp hcap
    dsimp only
    rw [hnil]
    simp
  · rw [if_neg hcap]
    dsimp only
    by_cases hslot : slot < thread_registry_get_capacity d.registry
    · have hstart : (if thread_registry_get_capacity d.registry ≤ d.rr_cursor then 0
          else d.rr_cursor) < thread_registry_get_capacity d.registry := by
        split_ifs with h
        · omega
        · omega
      have hmem := mem_rotation (thread_registry_get_capacity d.registry)
        (if thread_registry_get_capacity d.registry ≤ d.rr_cursor then 0 else d.rr_cursor)
        slot hstart hslot
      rw [drain_cycle_go_final_registry _ d _ _ false hb slot, if_pos hmem]
    · have hnm : slot ∉ (List.range (thread_registry_get_capacity d.registry)).map
          (fun o => ((if thread_registry_get_capacity d.registry ≤ d.rr_cursor then 0
            else d.rr_cursor) + o) % thread_registry_get_capacity d.registry) :=
        fun hm => hslot (rotation_mem_lt _ _ _ (by omega) hm)
      rw [drain_cycle_go_final_registry _ d _ _ false hb slot, if_neg hnm]
      have hout : d.registry.slots.getD slot none = none :=
        List.getD_eq_default _ _ (Nat.le_of_not_lt hslot)
      rw [hout]
      rfl

lemma drain_cycle_final_empty (d : DrainThread) (now_ns : Nat)
    (hb : registry_submit_bounded d.registry UINT32_MAX) :
    registry_all_empty (drain_cycle d true now_ns).1.registry := by
  intro slot ls hget l hl
  rw [drain_cycle_final_registry d now_ns hb slot] at hget
  rcases Option.map_eq_some'.mp hget with ⟨ls0, _, rfl⟩
  rcases hl with hl | hl
  · rcases Option.map_eq_some'.mp hl with ⟨l0, _, rfl⟩
    rfl
  · rcases Option.map_eq_some'.mp hl with ⟨l0, _, rfl⟩
    rfl

lemma registry_all_empty_bounded (reg : ThreadRegistry) (h : registry_all_empty reg) :
    registry_submit_bounded reg UINT32_MAX := by
  intro slot ls hget l hl
  rw [h slot ls hget l hl]
  norm_num [UINT32_MAX]

lemma lane_processed_opt_empty (config : DrainConfig) (final_pass : Bool) (ln : Option Lane)
    (h : ∀ l, ln = some l → l.submit = []) :
    lane_processed_opt config final_pass ln = 0 := by
  cases ln with
  | none => rfl
  | some l =>
    simp only [lane_processed_opt, drain_lane_core_spec]
    rw [h l rfl]
    simp

lemma drain_cycle_go_no_work : ∀ (offsets : List Nat) (d : DrainThread)
    (start capacity : Nat) (work_done : Bool),
    registry_all_empty d.registry →
    (drain_cycle_go d true start capacity offsets work_done).2 = work_done := by
  intro offsets
  induction offsets with
  | nil =>
    intro d start capacity work_done hb
    rfl
  | cons o rest ih =>
    intro d start capacity work_done hb
    simp only [drain_cycle_go]
    rcases hta : thread_registry_get_thread_at d.registry ((start + o) % capacity)
      with _ | lanes
    · simp only [hta]
      exact ih d start capacity work_done hb
    · simp only [hta]
      obtain ⟨hs, ht, hc, hr, hf, hw, hwork⟩ :=
        drain_slot_step_spec d ((start + o) % capacity) lanes true
      have hta2 : d.registry.slots.getD ((start + o) % capacity) none = some lanes := hta
      have hei : ∀ l, lanes.index_lane = some l → l.submit = [] :=
        fun l hl => hb _ lanes hta2 l (Or.inl hl)
      have hed : ∀ l, lanes.detail_lane = some l → l.submit = [] :=
        fun l hl => hb _ lanes hta2 l (Or.inr hl)
      have hbi : ∀ l, lanes.index_lane = some l → l.submit.length < UINT32_MAX := by
        intro l hl
        rw [hei l hl]
        norm_num [UINT32_MAX]
      have hbd : ∀ l, lanes.detail_lane = some l → l.submit.length < UINT32_MAX := by
        intro l hl
        rw [hed l hl]
        norm_num [UINT32_MAX]
      have hs2 : (drain_slot_step d ((start + o) % capacity) lanes true).2 = false := by
        rw [hwork, lane_processed_opt_empty _ _ _ hei, lane_processed_opt_empty _ _ _ hed]
        decide
      have hb2 : registry_all_empty
          (drain_slot_step d ((start + o) % capacity) lanes true).1.registry := by
        rw [hr, lane_drained_opt_final _ _ hbi, lane_drained_opt_final _ _ hbd]
        apply registry_lanes_prop_set _ _ _ _ hb
        intro l hl
        rcases hl with hl | hl
        · rcases Option.map_eq_some'.mp hl with ⟨l0, _, rfl⟩
          rfl
        · rcases Option.map_eq_some'.mp hl with ⟨l0, _, rfl⟩
          rfl
      rw [ih _ start capacity _ hb2, hs2]
      simp

lemma drain_cycle_no_work (d : DrainThread) (now_ns : Nat)
    (hemp : registry_all_empty d.registry) :
    (drain_cycle d true now_ns).2 = false := by
  unfold drain_cycle
  dsimp only
  by_cases hcap : thread_registry_get_capacity d.registry = 0
  · rw [if_pos hcap]
  · rw [if_neg hcap]
    exact drain_cycle_go_no_work _ d _ _ false hemp

lemma drain_cycle_bumped_keeps (d : DrainThread) (now_ns : Nat) :
    (drain_cycle_bumped d now_ns).state = d.state ∧
    (drain_cycle_bumped d now_ns).registry = (drain_cycle d true now_ns).1.registry ∧
    (drain_cycle_bumped d now_ns).metrics.writer_handoffs =
      d.metrics.writer_handoffs := by
  obtain ⟨ks, kt, kc, kw⟩ := drain_cycle_keeps d true now_ns
  exact ⟨ks, rfl, kw⟩

lemma drain_worker_final_loop_succ (f : Nat) (d : DrainThread) (now_ns : Nat) :
    drain_worker_final_loop (f + 1) d now_ns =
      if (drain_cycle d true now_ns).2 then
        drain_worker_final_loop f (drain_cycle_bumped d now_ns) now_ns
      else (drain_cycle_bumped d now_ns, true) := rfl

lemma drain_worker_final_loop_spec (f : Nat) (d : DrainThread) (now_ns : Nat)
    (hb : registry_submit_bounded d.registry UINT32_MAX) :
    (drain_worker_final_loop (f + 2) d now_ns).2 = true ∧
    (drain_worker_final_loop (f + 2) d now_ns).1.state = d.state ∧
    (∀ slot, (drain_worker_final_loop (f + 2) d now_ns).1.registry.slots.getD slot none =
      (d.registry.slots.getD slot none).map laneset_final_drained) ∧
    (drain_worker_final_loop (f + 2) d now_ns).1.metrics.writer_handoffs =
      d.metrics.writer_handoffs := by
  obtain ⟨b1s, b1r, b1w⟩ := drain_cycle_bumped_keeps d now_ns
  cases h1 : (drain_cycle d true now_ns).2 with
  | false =>
    have hloop : drain_worker_final_loop (f + 2) d now_ns =
        (drain_cycle_bumped d now_ns, true) := by
      rw [show f + 2 = f + 1 + 1 from rfl, drain_worker_final_loop_succ, h1]
      simp
    rw [hloop]
    refine ⟨rfl, b1s, ?_, b1w⟩
    intro slot
    rw [b1r]
    exact drain_cycle_final_registry d now_ns hb slot
  | true =>
    have hemp : registry_all_empty (drain_cycle_bumped d now_ns).registry := by
      rw [b1r]
      exact drain_cycle_final_empty d now_ns hb
    have hb2 : registry_submit_bounded (drain_cycle_bumped d now_ns).registry UINT32_MAX :=
      registry_all_empty_bounded _ hemp
    obtain ⟨b2s, b2r, b2w⟩ := drain_cycle_bumped_keeps (drain_cycle_bumped d now_ns) now_ns
    have h2 : (drain_cycle (drain_cycle_bumped d now_ns) true now_ns).2 = false :=
      drain_cycle_no_work _ now_ns hemp
    have hloop : drain_worker_final_loop (f + 2) d now_ns =
        (drain_cycle_bumped (drain_cycle_bumped d now_ns) now_ns, true) := by
      rw [show f + 2 = f + 1 + 1 from rfl, drain_worker_final_loop_succ, h1]
      simp only [if_pos]
      rw [drain_worker_final_loop_succ, h2]
      simp
    rw [hloop]
    refine ⟨rfl, b2s.trans b1s, ?_, b2w.trans b1w⟩
    intro slot
    rw [b2r, drain_cycle_final_registry (drain_cycle_bumped d now_ns) now_ns hb2 slot,
      b1r, drain_cycle_final_registry d now_ns hb slot, option_map_final_idem]

/-- C2 (amended): once the worker has observed the STOPPING state it
counts a final drain and repeats full cycles with the unbounded
`UINT32_MAX` per-lane limit until one complete cycle yields no work,
and only then sets the drain state to STOPPED; at that point every
ring that was in any lane's submit queue at stop time has been moved
to that lane's free queue.  No bytes are handed to a per-thread file
writer: the ghost `writer_handoffs` log is unchanged (the drain
sources contain no writer), which refutes the spec's "published
events are persisted" clause. -/
theorem drain_final_pass_drains_all (d : DrainThread) (fuel now_ns : Nat)
    (hstate : d.state = DrainState.STOPPING) (hfuel : 2 ≤ fuel)
    (hb : registry_submit_bounded d.registry UINT32_MAX) :
    compute_effective_limit d.config true = UINT32_MAX ∧
    (drain_worker_on_stop d fuel now_ns).2 = true ∧
    (drain_worker_on_stop d fuel now_ns).1.state = DrainState.STOPPED ∧
    (∀ slot, (drain_worker_on_stop d fuel now_ns).1.registry.slots.getD slot none =
      (d.registry.slots.getD slot none).map laneset_final_drained) ∧
    (drain_worker_on_stop d fuel now_ns).1.metrics.writer_handoffs =
      d.metrics.writer_handoffs := by
  obtain ⟨f, rfl⟩ : ∃ f, fuel = f + 2 := ⟨fuel - 2, by omega⟩
  obtain ⟨h2, hs, hreg, hw⟩ := drain_worker_final_loop_spec f
    { d with metrics := { d.metrics with
        final_drains := (d.metrics.final_drains + 1) % U64 } } now_ns hb
  have hstop : drain_worker_on_stop d (f + 2) now_ns =
      ({ (drain_worker_final_loop (f + 2)
          { d with metrics := { d.metrics with
              final_drains := (d.metrics.final_drains + 1) % U64 } } now_ns).1 with
        state := DrainState.STOPPED }, true) := by
    unfold drain_worker_on_stop
    dsimp only
    rw [h2]
    simp
  rw [hstop]
  refine ⟨rfl, rfl, rfl, ?_, hw⟩
  intro slot
  exact hreg slot

/-- Witness for C2 at a concrete drain: one slot with two submitted
rings, fuel 3; the shutdown tail reports completion, ends STOPPED, and
the slot's index lane ends with an empty submit queue and both rings
in the free queue. -/
theorem drain_final_pass_drains_all_witness :
    (DrainThread.mk DrainState.STOPPING ⟨[some ⟨some ⟨[5, 6], []⟩, none⟩]⟩
        drain_config_default true 0 0 drain_metrics_atomic_reset).state =
      DrainState.STOPPING ∧
    2 ≤ 3 ∧
    (drain_worker_on_stop (DrainThread.mk DrainState.STOPPING
        ⟨[some ⟨some ⟨[5, 6], []⟩, none⟩]⟩ drain_config_default true 0 0
        drain_metrics_atomic_reset) 3 11).2 = true ∧
    (drain_worker_on_stop (DrainThread.mk DrainState.STOPPING
        ⟨[some ⟨some ⟨[5, 6], []⟩, none⟩]⟩ drain_config_default true 0 0
        drain_metrics_atomic_reset) 3 11).1.state = DrainState.STOPPED ∧
    (drain_worker_on_stop (DrainThread.mk DrainState.STOPPING
        ⟨[some ⟨some ⟨[5, 6], []⟩, none⟩]⟩ drain_config_default true 0 0
        drain_metrics_atomic_reset) 3 11).1.registry.slots.getD 0 none =
      (((DrainThread.mk DrainState.STOPPING ⟨[some ⟨some ⟨[5, 6], []⟩, none⟩]⟩
        drain_config_default true 0 0
        drain_metrics_atomic_reset).registry.slots.getD 0 none).map
          laneset_final_drained) := by
  have hbw : registry_submit_bounded (DrainThread.mk DrainState.STOPPING
      ⟨[some ⟨some ⟨[5, 6], []⟩, none⟩]⟩ drain_config_default true 0 0
      drain_metrics_atomic_reset).registry UINT32_MAX := by
    intro slot ls hget l hl
    cases slot with
    | zero =>
      have h2 : some (⟨some ⟨[5, 6], []⟩, none⟩ : ThreadLaneSet) = some ls := hget
      injection h2 with h3
      subst h3
      rcases hl with hl | hl
      · injection hl with h4
        subst h4
        decide
      · simp at hl
    | succ n =>
      have h2 : (none : Option ThreadLaneSet) = some ls := hget
      simp at h2
  have happ := drain_final_pass_drains_all (DrainThread.mk DrainState.STOPPING
      ⟨[some ⟨some ⟨[5, 6], []⟩, none⟩]⟩ drain_config_default true 0 0
      drain_metrics_atomic_reset) 3 11 rfl (by decide) hbw
  exact ⟨rfl, by decide, happ.2.1, happ.2.2.1, happ.2.2.2.1 0⟩

/-- C2 counterexample for the persistence clause: a concrete shutdown
run drains the only submitted ring back to the free queue and reaches
STOPPED, yet no bytes were ever handed to any file writer — the ghost
`writer_handoffs` log is still empty, so "its published events are
persisted" does not hold of the drain sources. -/
theorem drain_final_no_persist_counterexample :
    (drain_worker_on_stop (DrainThread.mk DrainState.STOPPING
        ⟨[some ⟨some ⟨[7], []⟩, none⟩]⟩ drain_config_default true 0 0
        drain_metrics_atomic_reset) 3 9).1.state = DrainState.STOPPED ∧
    (drain_worker_on_stop (DrainThread.mk DrainState.STOPPING
        ⟨[some ⟨some ⟨[7], []⟩, none⟩]⟩ drain_config_default true 0 0
        drain_metrics_atomic_reset) 3 9).1.registry.slots.getD 0 none =
      some ⟨some ⟨[], [7]⟩, none⟩ ∧
    (drain_worker_on_stop (DrainThread.mk DrainState.STOPPING
        ⟨[some ⟨some ⟨[7], []⟩, none⟩]⟩ drain_config_default true 0 0
        drain_metrics_atomic_reset) 3 9).1.metrics.writer_handoffs = [] := by
  decide

end ADA
